import Mathlib

/-!
Shallow embedding of `host_guest/GenerateInputs.ipynb` from the SAMPL6
host-guest preparation repository.

The notebook is linear glue code around the (closed-source) OpenEye
toolkit plus one call to openbabel.  We embed the toolkit as a record of
opaque functions (`Toolkit`), molecules as a small record carrying the
observable attributes the notebook manipulates (conformer ensemble,
partial charges), the file system as a write/remove log, and the
notebook's observable behaviour (prints, system calls, toolkit calls) as
an event trace.  Every pipeline definition below is translated from the
corresponding notebook cell.
-/

namespace SAMPL6

/-! ### String helpers (Python `str.replace` and `str.split()[0]`) -/

/-- Fuel-driven all-occurrences substring replacement on character lists.
Fuel `input.length` suffices since every step consumes at least one
character of the input. -/
def replaceFuel (pat rep : List Char) : Nat → List Char → List Char
  | 0, l => l
  | _ + 1, [] => []
  | fuel + 1, c :: rest =>
    if pat.isPrefixOf (c :: rest) ∧ pat ≠ [] then
      rep ++ replaceFuel pat rep fuel ((c :: rest).drop pat.length)
    else
      c :: replaceFuel pat rep fuel rest

/-- Python `s.replace(pat, rep)`: replace every occurrence of `pat` in `s`
by `rep` (left to right, non-overlapping). -/
def strReplace (s pat rep : String) : String :=
  ⟨replaceFuel pat.data rep.data s.data.length s.data⟩

/-- Does `pat` occur as a contiguous sublist of `l`? -/
def containsSub (pat : List Char) : List Char → Bool
  | [] => pat.isPrefixOf []
  | c :: rest => pat.isPrefixOf (c :: rest) || containsSub pat rest

/-- Python `line.split()[0]`: first whitespace-separated token of a line
(we model lines as newline-free and split on spaces). -/
def firstToken (s : String) : String :=
  ⟨(s.data.dropWhile (fun c => c = ' ')).takeWhile (fun c => c ≠ ' ')⟩

/-! ### Data model -/

/-- The observable attributes of an OpenEye `OEMol` that the notebook
manipulates: an identifying tag for the opaque chemistry (atoms, bonds,
coordinates), the conformer ensemble, and the optional partial-charge
data. -/
structure Mol where
  tag : String
  confs : List Nat
  charges : Option String
deriving DecidableEq, Repr, Inhabited

/-- An OpenEye receptor record, opaque to the notebook. -/
structure Receptor where
  data : String
deriving DecidableEq, Repr, Inhabited

/-- Return code of `OEDock.DockMultiConformerMolecule`. -/
inductive DockStatus where
  | success
  | failed (code : Nat)
deriving DecidableEq, Repr

/-- The toolkit constant the notebook compares docking status against. -/
def OEDockingReturnCode_Success : DockStatus := DockStatus.success

/-- The external toolkit functions the notebook calls, embedded as opaque
function fields.  `OEReadMolecule`/`OEParseSmiles` return the parsed
molecule together with their success flag; `OEAssignCharges` computes
AM1-BCC partial-charge data for a molecule; `omega` produces the
conformer ensemble together with the Omega status flag;
`OEWriteMolecule` serialises a molecule in the format given by the file
extension; `obabel` is the external `obabel --gen3d` conversion from a
.smi file's content to mol2 file content. -/
structure Toolkit where
  OEReadMolecule : List String → Mol × Bool
  OEParseSmiles : String → Mol × Bool
  OESetNeutralpHModel : Mol → Mol
  omega : Mol → List Nat × Bool
  OEAssignCharges : Mol → String
  OEGetCenterOfMass : Mol → Int × Int × Int
  OEMakeReceptor : Mol → Int → Int → Int → Receptor
  DockMultiConformerMolecule : Receptor → Mol → Mol × DockStatus
  OESetSDScore : Mol → Mol
  AnnotatePose : Mol → Mol
  OEWriteMolecule : String → Mol → List String
  obabel : List String → List String

/-- One file-system operation (the log records every write and removal,
oldest first). -/
inductive FsOp where
  | write (path : String) (content : List String)
  | remove (path : String)
deriving DecidableEq, Repr

/-- Last relevant operation for `p` in an oldest-first log:
`some (some c)` if the last relevant op wrote `c`, `some none` if it
removed the file, `none` if the log never touched `p`. -/
def fsLast (p : String) : List FsOp → Option (Option (List String))
  | [] => none
  | op :: rest =>
    match fsLast p rest with
    | some r => some r
    | none =>
      match op with
      | FsOp.write q c => if q = p then some (some c) else none
      | FsOp.remove q => if q = p then some none else none

/-- Current content of file `p` after replaying an oldest-first log. -/
def fsGet (log : List FsOp) (p : String) : Option (List String) :=
  (fsLast p log).bind id

/-- Observable events of a notebook run: `print` output, calls of
`os.system`, and the toolkit invocations relevant to the claims, plus a
stage marker emitted between the notebook's cells. -/
inductive Event where
  | printed (s : String)
  | sysCall (cmd : String)
  | omegaCall (name : String)
  | chargeCall (name : String)
  | dockAttempt (name : String)
  | stage (n : Nat)
deriving DecidableEq, Repr

def isStageMark : Event → Bool
  | Event.stage _ => true
  | _ => false

def isChargeCall : Event → Bool
  | Event.chargeCall _ => true
  | _ => false

def isDockAttempt : Event → Bool
  | Event.dockAttempt _ => true
  | _ => false

def isOmegaCall : Event → Bool
  | Event.omegaCall _ => true
  | _ => false

def isSysCall : Event → Bool
  | Event.sysCall _ => true
  | _ => false

def isObabelCall : Event → Bool
  | Event.sysCall cmd => cmd = "obabel -ismi oxaliplatin.smi -omol2 -O tmp.mol2 --gen3d"
  | _ => false

/-! ### The guest-preparation loop body (shared by the OA/TEMOA cell and
the CB8 cell, which contain the identical code) -/

/-- Steps `mol = OEMol(); OEParseSmiles(mol, smi); OESetNeutralpHModel(mol)`
(the `OEParseSmiles` return value is ignored by the notebook). -/
def pHMol (tk : Toolkit) (smi : String) : Mol :=
  tk.OESetNeutralpHModel (tk.OEParseSmiles smi).1

/-- Step `status = omega(mol)`: Omega replaces the conformer ensemble
(`SetIncludeInput(False)`) and returns its status flag. -/
def omegaResult (tk : Toolkit) (smi : String) : List Nat × Bool :=
  tk.omega (pHMol tk smi)

/-- The guest molecule after conformer generation and
`OEAssignCharges(mol, chargeEngine)` (AM1-BCC charging sets the
partial-charge data of the molecule). -/
def preparedMol (tk : Toolkit) (smi : String) : Mol :=
  let m2 : Mol := { pHMol tk smi with confs := (omegaResult tk smi).1 }
  { m2 with charges := some (tk.OEAssignCharges m2) }

/-- Loop `for k, conf in enumerate(mol.GetConfs()): if k > 0: mol.DeleteConf(conf)`
— delete every conformer whose enumeration index is positive. -/
def deleteExtraConfs (m : Mol) : Mol :=
  { m with confs := ((m.confs.enum.filter (fun kc => kc.1 == 0)).map (fun kc => kc.2)) }

/-- The molecule the loop writes out: the docked pose (scored and
annotated) if docking succeeded, otherwise the input pose with all
conformers but the first deleted. -/
def guestOutMol (tk : Toolkit) (receptor : Receptor) (smi : String) : Mol :=
  let m := preparedMol tk smi
  let dr := tk.DockMultiConformerMolecule receptor m
  let dockedMol := tk.AnnotatePose (tk.OESetSDScore dr.1)
  if dr.2 = OEDockingReturnCode_Success then dockedMol else deleteExtraConfs m

/-- Body of the guest loop for one `(smi, name)` pair: parse, set pH
model, run Omega (printing an error on failure), assign AM1-BCC charges,
dock (printing a warning and falling back to the input pose on failure),
write mol2 and SDF, then rewrite the mol2 file with every `<0>`
substructure tag replaced by the guest name.  Returns the written
molecule, the new file-system log and the emitted events. -/
def processGuest (tk : Toolkit) (receptor : Receptor) (dirname : String)
    (fs : List FsOp) (p : String × String) : Mol × List FsOp × List Event :=
  let smi := p.1
  let name := p.2
  let evConf : List Event :=
    if (omegaResult tk smi).2 then
      [Event.omegaCall name]
    else
      [Event.omegaCall name,
       Event.printed ("Error generating conformers for " ++ smi ++ ", " ++ name ++ ".")]
  let m := preparedMol tk smi
  let dr := tk.DockMultiConformerMolecule receptor m
  let dockedMol := tk.AnnotatePose (tk.OESetSDScore dr.1)
  let outRes : Mol × List Event :=
    if dr.2 = OEDockingReturnCode_Success then
      (dockedMol, [])
    else
      (deleteExtraConfs m,
       [Event.printed ("Docking failed for " ++ name ++ "; storing input pose.")])
  let outmol := outRes.1
  let tripos_mol2_filename := dirname ++ "/" ++ name ++ ".mol2"
  let sdf_filename := dirname ++ "/" ++ name ++ ".sdf"
  let fs1 := fs ++ [FsOp.write tripos_mol2_filename (tk.OEWriteMolecule ".mol2" outmol)]
  let fs2 := fs1 ++ [FsOp.write sdf_filename (tk.OEWriteMolecule ".sdf" outmol)]
  let lines := (fsGet fs2 tripos_mol2_filename).getD []
  let newlines := lines.map (fun line => strReplace line "<0>" name)
  let fs3 := fs2 ++ [FsOp.write tripos_mol2_filename newlines]
  (outmol, fs3,
   evConf ++ [Event.chargeCall name] ++ [Event.dockAttempt name] ++ outRes.2)

/-- The `for (smi, name) in zip(smiles, guest_names):` loop, threading
the file system and collecting the `oemols` list and the events. -/
def processAll (tk : Toolkit) (receptor : Receptor) (dirname : String) :
    List FsOp → List (String × String) → List Mol × List FsOp × List Event
  | fs, [] => ([], fs, [])
  | fs, p :: rest =>
    let r := processGuest tk receptor dirname fs p
    let rs := processAll tk receptor dirname r.2.1 rest
    (r.1 :: rs.1, rs.2.1, r.2.2 ++ rs.2.2)

/-! ### Stage 1: load hosts and write them to alternate formats -/

/-- Cell 3: read OA and TEMOA from PDB and CB8 from SDF (return values
of `OEReadMolecule` ignored; the `OEAssignCharges` loop over hosts is
commented out in the source), then write OA/TEMOA as mol2 and sdf and
CB8 as pdb and mol2. -/
def loadHosts (tk : Toolkit) (fs : List FsOp)
    (oaPdb temoaPdb cb8Sdf : List String) : (Mol × Mol × Mol) × List FsOp :=
  let OA := (tk.OEReadMolecule oaPdb).1
  let TEMOA := (tk.OEReadMolecule temoaPdb).1
  let CB8 := (tk.OEReadMolecule cb8Sdf).1
  let fs1 := fs ++ ([".mol2", ".sdf"].map (fun fmt =>
    [FsOp.write ("./OctaAcidsAndGuests/OA" ++ fmt) (tk.OEWriteMolecule fmt OA),
     FsOp.write ("./OctaAcidsAndGuests/TEMOA" ++ fmt) (tk.OEWriteMolecule fmt TEMOA)])).flatten
  let fs2 := fs1 ++ ([".pdb", ".mol2"].map (fun fmt =>
    [FsOp.write ("./CB8AndGuests/CB8" ++ fmt) (tk.OEWriteMolecule fmt CB8)])).flatten
  ((OA, TEMOA, CB8), fs2)

/-! ### Stage 2: build receptors from the hosts' centers of mass -/

/-- Body of the receptor loop of cell 5: get the host's center of mass
as the binding-site hint and call `OEMakeReceptor` with exactly those
three coordinates. -/
def buildReceptor (tk : Toolkit) (hostmol : Mol) : Receptor :=
  let com := tk.OEGetCenterOfMass hostmol
  tk.OEMakeReceptor hostmol com.1 com.2.1 com.2.2

/-- Cell 5: the `receptors` dict, built over the three (hostname,
hostmol) pairs OA, TEMOA, CB8 in that order. -/
def prepareReceptors (tk : Toolkit) (OA TEMOA CB8 : Mol) :
    List (String × Receptor) :=
  [("OA", OA), ("TEMOA", TEMOA), ("CB8", CB8)].map
    (fun h => (h.1, buildReceptor tk h.2))

/-! ### Stages 3 and 4: dock the OA/TEMOA and CB8 guests -/

/-- One iteration of the for-hostname loop over OA and TEMOA of
cell 7 (also the body of cell 9 with hostname-independent names):
extract SMILES as the first token of each line, build guest names, fetch
the host receptor and run the guest loop. -/
def dockGuestsTo (tk : Toolkit) (receptors : List (String × Receptor))
    (hostname dirname : String) (nameOf : Nat → String) (lines : List String)
    (fs : List FsOp) : List Mol × List FsOp × List Event :=
  let smiles := lines.map firstToken
  let guest_names := (List.range smiles.length).map nameOf
  let receptor := (receptors.lookup hostname).getD default
  processAll tk receptor dirname fs (smiles.zip guest_names)

/-- Cell 7: dock every Gibb guest to OA and then to TEMOA, writing into
`OctaAcidsAndGuests` with names `OA-GN` / `TEMOA-GN`. -/
def dockOctaAcids (tk : Toolkit) (receptors : List (String × Receptor))
    (lines : List String) (fs : List FsOp) :
    (List Mol × List Mol) × List FsOp × List Event :=
  let rOA := dockGuestsTo tk receptors "OA" "./OctaAcidsAndGuests"
    (fun i => ("OA" ++ "-") ++ ("G" ++ toString i)) lines fs
  let rT := dockGuestsTo tk receptors "TEMOA" "./OctaAcidsAndGuests"
    (fun i => ("TEMOA" ++ "-") ++ ("G" ++ toString i)) lines rOA.2.1
  ((rOA.1, rT.1), rT.2.1, rOA.2.2 ++ rT.2.2)

/-- Cell 9: dock every Isaacs guest to CB8, writing into `CB8AndGuests`
with names `CB8-GN`; the `smiles` list, `guest_names` list and the
`dock` receptor remain live for the oxaliplatin cell. -/
def dockCB8guests (tk : Toolkit) (receptors : List (String × Receptor))
    (lines : List String) (fs : List FsOp) :
    (List Mol × List String × List String × Receptor) × List FsOp × List Event :=
  let smiles := lines.map firstToken
  let guest_names := (List.range smiles.length).map (fun i => "CB8-G" ++ toString i)
  let receptor := (receptors.lookup "CB8").getD default
  let r := processAll tk receptor "./CB8AndGuests" fs (smiles.zip guest_names)
  ((r.1, smiles, guest_names, receptor), r.2.1, r.2.2)

/-! ### Stage 5: oxaliplatin via openbabel -/

/-- The molecule the oxaliplatin cell writes: read the obabel-generated
mol2, dock it with the CB8 `dock` object (status ignored), score and
annotate; no charge assignment. -/
def oxOutMol (tk : Toolkit) (receptor : Receptor) (lastSmi : String) : Mol :=
  let mol := (tk.OEReadMolecule (tk.obabel [lastSmi])).1
  tk.AnnotatePose (tk.OESetSDScore (tk.DockMultiConformerMolecule receptor mol).1)

/-- Cell 11: write `smiles[-1]` to `oxaliplatin.smi`, run
`obabel --gen3d` into `tmp.mol2`, read it back, remove both temporary
files, dock into the CB8 receptor (return status unchecked, no charge
assignment), and write the result over `guest_names[-1]`'s mol2 and SDF
files with no `<0>` substitution pass. -/
def handleOxaliplatin (tk : Toolkit) (receptor : Receptor)
    (smiles guest_names : List String) (fs : List FsOp) :
    List FsOp × List Event :=
  let fs1 := fs ++ [FsOp.write "oxaliplatin.smi" [smiles.getLastD ""]]
  let smiContent := (fsGet fs1 "oxaliplatin.smi").getD []
  let fs2 := fs1 ++ [FsOp.write "tmp.mol2" (tk.obabel smiContent)]
  let mol := (tk.OEReadMolecule ((fsGet fs2 "tmp.mol2").getD [])).1
  let fs3 := fs2 ++ [FsOp.remove "oxaliplatin.smi"]
  let fs4 := fs3 ++ [FsOp.remove "tmp.mol2"]
  let dr := tk.DockMultiConformerMolecule receptor mol
  let dockedMol := tk.AnnotatePose (tk.OESetSDScore dr.1)
  let outmol := dockedMol
  let lastName := guest_names.getLastD ""
  let fs5 := fs4 ++ [FsOp.write ("./CB8AndGuests/" ++ lastName ++ ".mol2")
    (tk.OEWriteMolecule ".mol2" outmol)]
  let fs6 := fs5 ++ [FsOp.write ("./CB8AndGuests/" ++ lastName ++ ".sdf")
    (tk.OEWriteMolecule ".sdf" outmol)]
  (fs6,
   [Event.sysCall "obabel -ismi oxaliplatin.smi -omol2 -O tmp.mol2 --gen3d",
    Event.sysCall "rm oxaliplatin.smi",
    Event.sysCall "rm tmp.mol2",
    Event.dockAttempt lastName])

/-! ### The whole notebook -/

/-- The results of one notebook run: the three host molecules, the
receptor dict, the `dock` receptor / `smiles` / `guest_names` values
left over from the CB8 cell, the written-molecule lists, the
file-system log after stages 1, 3, 4 and 5 (stage 2 writes nothing) and
the event deltas of stages 3, 4 and 5 (stages 1 and 2 emit none). -/
structure Run where
  OA : Mol
  TEMOA : Mol
  CB8 : Mol
  receptors : List (String × Receptor)
  dockCB8 : Receptor
  cb8Smiles : List String
  cb8Names : List String
  oaMols : List Mol
  temoaMols : List Mol
  cb8Mols : List Mol
  fs1 : List FsOp
  fs3 : List FsOp
  fs4 : List FsOp
  fs : List FsOp
  ev3 : List Event
  ev4 : List Event
  ev5 : List Event
deriving DecidableEq, Repr

/-- Execute the notebook top to bottom on the contents of the five input
files (OA.pdb, TEMOA.pdb, CB8.sdf, Gibb_SAMPL6_guests.smi,
Isaacs_SAMPL6_guests.smi), starting from an empty file-system log. -/
def notebookRun (tk : Toolkit) (oaPdb temoaPdb cb8Sdf gibbLines isaacsLines :
    List String) : Run :=
  let s1 := loadHosts tk [] oaPdb temoaPdb cb8Sdf
  let hosts := s1.1
  let receptors := prepareReceptors tk hosts.1 hosts.2.1 hosts.2.2
  let s3 := dockOctaAcids tk receptors gibbLines s1.2
  let s4 := dockCB8guests tk receptors isaacsLines s3.2.1
  let cb8out := s4.1
  let s5 := handleOxaliplatin tk cb8out.2.2.2 cb8out.2.1 cb8out.2.2.1 s4.2.1
  { OA := hosts.1
    TEMOA := hosts.2.1
    CB8 := hosts.2.2
    receptors := receptors
    dockCB8 := cb8out.2.2.2
    cb8Smiles := cb8out.2.1
    cb8Names := cb8out.2.2.1
    oaMols := s3.1.1
    temoaMols := s3.1.2
    cb8Mols := cb8out.1
    fs1 := s1.2
    fs3 := s3.2.1
    fs4 := s4.2.1
    fs := s5.1
    ev3 := s3.2.2
    ev4 := s4.2.2
    ev5 := s5.2 }

/-- The full event trace of a run, with a marker at the start of each of
the five stages. -/
def notebookEvents (r : Run) : List Event :=
  [Event.stage 1] ++ [Event.stage 2] ++ [Event.stage 3] ++ r.ev3 ++
  [Event.stage 4] ++ r.ev4 ++ [Event.stage 5] ++ r.ev5

/-! ### Derived descriptions of the loop body, used by the claims -/

/-- The three file-system operations one guest iteration performs: write
the mol2 file, write the SDF file, rewrite the mol2 file with every
`<0>` replaced by the guest name. -/
def guestFsDelta (tk : Toolkit) (receptor : Receptor) (dirname : String)
    (p : String × String) : List FsOp :=
  let out := guestOutMol tk receptor p.1
  let raw := tk.OEWriteMolecule ".mol2" out
  [FsOp.write (dirname ++ "/" ++ p.2 ++ ".mol2") raw,
   FsOp.write (dirname ++ "/" ++ p.2 ++ ".sdf") (tk.OEWriteMolecule ".sdf" out),
   FsOp.write (dirname ++ "/" ++ p.2 ++ ".mol2")
     (raw.map (fun line => strReplace line "<0>" p.2))]

/-- The events one guest iteration emits. -/
def guestEvDelta (tk : Toolkit) (receptor : Receptor) (p : String × String) :
    List Event :=
  (if (omegaResult tk p.1).2 then
    [Event.omegaCall p.2]
  else
    [Event.omegaCall p.2,
     Event.printed ("Error generating conformers for " ++ p.1 ++ ", " ++ p.2 ++ ".")]) ++
  [Event.chargeCall p.2] ++ [Event.dockAttempt p.2] ++
  (if (tk.DockMultiConformerMolecule receptor (preparedMol tk p.1)).2 =
      OEDockingReturnCode_Success then
    ([] : List Event)
  else
    [Event.printed ("Docking failed for " ++ p.2 ++ "; storing input pose.")])

/-- A log that only writes (never removes) files. -/
def writesOnly (l : List FsOp) : Prop := ∀ q, FsOp.remove q ∉ l

/-! ### A concrete toolkit and concrete inputs (for witnesses and
counterexamples) -/

/-- A concrete molecule as produced by the sample toolkit. -/
def sampleMol (t : String) : Mol := { tag := t, confs := [0], charges := none }

/-- A concrete, fully computable stand-in for the opaque toolkit: the
chemistry is encoded into the `tag` string, docking always succeeds, the
conformer generator returns three conformers, and the serialiser emits a
`<0>` substructure-tag line so the mol2 substitution pass is observable. -/
def sampleTk : Toolkit where
  OEReadMolecule := fun c => (sampleMol ("file:" ++ c.headD ""), true)
  OEParseSmiles := fun s => (sampleMol ("smi:" ++ s), true)
  OESetNeutralpHModel := fun m => { m with tag := m.tag ++ "/pH" }
  omega := fun _ => ([10, 11, 12], true)
  OEAssignCharges := fun m => "bcc:" ++ m.tag
  OEGetCenterOfMass := fun _ => (1, 2, 3)
  OEMakeReceptor := fun m x y z =>
    ⟨m.tag ++ "@" ++ toString x ++ "," ++ toString y ++ "," ++ toString z⟩
  DockMultiConformerMolecule := fun r m =>
    ({ tag := "dock[" ++ r.data ++ "](" ++ m.tag ++ ")", confs := [0],
       charges := m.charges }, DockStatus.success)
  OESetSDScore := fun m => { m with tag := m.tag ++ "/sd" }
  AnnotatePose := fun m => { m with tag := m.tag ++ "/ann" }
  OEWriteMolecule := fun ext m =>
    [ext ++ ":" ++ m.tag, "<0>",
     if m.charges.isSome then "charged" else "uncharged"]
  obabel := fun c => ["obabel3d:" ++ c.headD "", "<0>"]

/-- The sample toolkit with docking always failing. -/
def failTk : Toolkit :=
  { sampleTk with DockMultiConformerMolecule := fun r m =>
      ({ tag := "dock[" ++ r.data ++ "](" ++ m.tag ++ ")", confs := [0],
         charges := m.charges }, DockStatus.failed 1) }

/-- The sample toolkit with Omega always failing (returning no
conformers), and docking failing as well. -/
def omegaFailTk : Toolkit :=
  { failTk with omega := fun _ => ([], false) }

/-- The sample toolkit with `OEParseSmiles` always reporting failure
(while still producing its molecule record, as the real call does). -/
def parseFailTk : Toolkit :=
  { sampleTk with OEParseSmiles := fun s => (sampleMol ("smi:" ++ s), false) }

def oaPdbSample : List String := ["ATOM OA"]

def temoaPdbSample : List String := ["ATOM TEMOA"]

def cb8SdfSample : List String := ["CB8 sdf"]

/-- One Gibb guest line (SMILES then a name column). -/
def gibbSample : List String := ["CC guest-a"]

/-- Two Isaacs guest lines; the last one is the oxaliplatin SMILES. -/
def isaacsSample : List String := ["CCO guest-b", "O=Pt oxaliplatin"]

/-- A concrete receptor for loop-body level witnesses. -/
def sampleReceptor : Receptor := ⟨"rec"⟩

/-! ### Derived stage-level descriptions -/

/-- The `(smi, name)` pairs of one OA/TEMOA hostname iteration. -/
def octaPairs (hostname : String) (g : List String) : List (String × String) :=
  (g.map firstToken).zip
    ((List.range (g.map firstToken).length).map
      (fun i => (hostname ++ "-") ++ ("G" ++ toString i)))

/-- The `(smi, name)` pairs of the CB8 loop. -/
def cb8Pairs (i : List String) : List (String × String) :=
  (i.map firstToken).zip
    ((List.range (i.map firstToken).length).map (fun k => "CB8-G" ++ toString k))

/-- The receptor the notebook looks up for a hostname, given the five
input files' worth of hosts. -/
def receptorFor (tk : Toolkit) (a b c : List String) (hostname : String) :
    Receptor :=
  let s1 := loadHosts tk [] a b c
  ((prepareReceptors tk s1.1.1 s1.1.2.1 s1.1.2.2).lookup hostname).getD default

/-- The six file-system operations of the oxaliplatin cell. -/
def oxFsDelta (tk : Toolkit) (receptor : Receptor) (smiles names : List String) :
    List FsOp :=
  [FsOp.write "oxaliplatin.smi" [smiles.getLastD ""],
   FsOp.write "tmp.mol2" (tk.obabel [smiles.getLastD ""]),
   FsOp.remove "oxaliplatin.smi",
   FsOp.remove "tmp.mol2",
   FsOp.write ("./CB8AndGuests/" ++ names.getLastD "" ++ ".mol2")
     (tk.OEWriteMolecule ".mol2" (oxOutMol tk receptor (smiles.getLastD ""))),
   FsOp.write ("./CB8AndGuests/" ++ names.getLastD "" ++ ".sdf")
     (tk.OEWriteMolecule ".sdf" (oxOutMol tk receptor (smiles.getLastD "")))]

/-- The toolkit with the success flags of its two parsing entry points
replaced arbitrarily (the parsed molecules are unchanged). -/
def withParseResults (tk : Toolkit) (f : String → Bool)
    (hb : List String → Bool) : Toolkit :=
  { tk with
    OEParseSmiles := fun s => ((tk.OEParseSmiles s).1, f s)
    OEReadMolecule := fun cont => ((tk.OEReadMolecule cont).1, hb cont) }

/-! ### File-system log lemmas -/

theorem fsLast_append (p : String) (l l' : List FsOp) :
    fsLast p (l ++ l') =
      match fsLast p l' with
      | some r => some r
      | none => fsLast p l := by
  induction l with
  | nil =>
    simp only [List.nil_append]
    cases h : fsLast p l' with
    | none => simp [fsLast]
    | some r => simp
  | cons op rest ih =>
    simp only [List.cons_append, fsLast, List.append_eq]
    rw [ih]
    cases h : fsLast p l' with
    | none => rfl
    | some r => rfl

theorem fsGet_append_write_eq (l : List FsOp) (p : String) (c : List String) :
    fsGet (l ++ [FsOp.write p c]) p = some c := by
  simp [fsGet, fsLast_append, fsLast]

theorem fsGet_append_write_ne (l : List FsOp) (p q : String) (c : List String)
    (h : q ≠ p) : fsGet (l ++ [FsOp.write q c]) p = fsGet l p := by
  simp [fsGet, fsLast_append, fsLast, h]

theorem fsGet_append_remove_ne (l : List FsOp) (p q : String)
    (h : q ≠ p) : fsGet (l ++ [FsOp.remove q]) p = fsGet l p := by
  simp [fsGet, fsLast_append, fsLast, h]

theorem writesOnly_append {l l' : List FsOp} (h : writesOnly l)
    (h' : writesOnly l') : writesOnly (l ++ l') := by
  intro q hq
  rcases List.mem_append.mp hq with hm | hm
  · exact h q hm
  · exact h' q hm

theorem writesOnly_of_append_left {l l' : List FsOp}
    (h : writesOnly (l ++ l')) : writesOnly l := by
  intro q hq
  exact h q (List.mem_append.mpr (Or.inl hq))

theorem fsLast_shape_of_writesOnly (p : String) (l : List FsOp)
    (h : writesOnly l) :
    fsLast p l = none ∨ ∃ c, fsLast p l = some (some c) := by
  induction l with
  | nil => exact Or.inl rfl
  | cons op rest ih =>
    have hrest : writesOnly rest := by
      intro q hq
      exact h q (List.mem_cons_of_mem op hq)
    rcases ih hrest with hr | ⟨c, hc⟩
    · cases op with
      | write q c =>
        by_cases hqp : q = p
        · exact Or.inr ⟨c, by simp [fsLast, hr, hqp]⟩
        · exact Or.inl (by simp [fsLast, hr, hqp])
      | remove q =>
        exact absurd (List.mem_cons_self _ _) (fun hmem => h q hmem)
    · exact Or.inr ⟨c, by simp [fsLast, hc]⟩

theorem fsGet_isSome_of_write (p : String) (c : List String) (l : List FsOp)
    (hw : FsOp.write p c ∈ l) (ho : writesOnly l) :
    (fsGet l p).isSome = true := by
  induction l with
  | nil => cases hw
  | cons op rest ih =>
    have hrest : writesOnly rest := by
      intro q hq
      exact ho q (List.mem_cons_of_mem op hq)
    rcases List.mem_cons.mp hw with heq | hmem
    · rcases fsLast_shape_of_writesOnly p rest hrest with hr | ⟨c', hc'⟩
      · simp [fsGet, fsLast, hr, ← heq]
      · simp [fsGet, fsLast, hc']
    · have := ih hmem hrest
      rcases fsLast_shape_of_writesOnly p rest hrest with hr | ⟨c', hc'⟩
      · simp [fsGet, hr] at this
      · simp [fsGet, fsLast, hc']

/-! ### String lemmas -/

theorem ne_of_length_ne {s t : String} (h : s.length ≠ t.length) : s ≠ t := by
  intro he
  exact h (congrArg String.length he)

theorem append_ne_append_of_length_ne (s : String) {t u : String}
    (h : t.length ≠ u.length) : s ++ t ≠ s ++ u := by
  refine ne_of_length_ne ?_
  simp only [String.length_append]
  omega

/-- Distinct extensions give distinct file names. -/
theorem mol2_ne_sdf (a : String) : a ++ ".mol2" ≠ a ++ ".sdf" :=
  append_ne_append_of_length_ne a (by decide)

theorem replaceFuel_of_not_contains (pat rep : List Char) :
    ∀ (fuel : Nat) (l : List Char), containsSub pat l = false →
      replaceFuel pat rep fuel l = l := by
  intro fuel
  induction fuel with
  | zero => intro l _; rfl
  | succ n ih =>
    intro l hl
    cases l with
    | nil => rfl
    | cons c rest =>
      simp only [containsSub, Bool.or_eq_false_iff] at hl
      simp only [replaceFuel, hl.1, false_and, if_false]
      exact congrArg (c :: ·) (ih rest hl.2)

theorem strReplace_of_not_contains (s pat rep : String)
    (h : containsSub pat.data s.data = false) : strReplace s pat rep = s := by
  cases s with
  | mk data =>
    simp only [strReplace]
    exact congrArg String.mk (replaceFuel_of_not_contains _ _ _ _ h)

/-! ### Loop-body structure lemmas -/

theorem processGuest_outmol (tk : Toolkit) (receptor : Receptor)
    (dirname : String) (fs : List FsOp) (p : String × String) :
    (processGuest tk receptor dirname fs p).1 = guestOutMol tk receptor p.1 := by
  by_cases h : (tk.DockMultiConformerMolecule receptor (preparedMol tk p.1)).2 =
      OEDockingReturnCode_Success <;>
    simp [processGuest, guestOutMol, h]

theorem processGuest_ev (tk : Toolkit) (receptor : Receptor)
    (dirname : String) (fs : List FsOp) (p : String × String) :
    (processGuest tk receptor dirname fs p).2.2 = guestEvDelta tk receptor p := by
  by_cases h1 : (omegaResult tk p.1).2 <;>
    by_cases h2 : (tk.DockMultiConformerMolecule receptor (preparedMol tk p.1)).2 =
        OEDockingReturnCode_Success <;>
      simp [processGuest, guestEvDelta, h1, h2]

theorem processGuest_fs (tk : Toolkit) (receptor : Receptor)
    (dirname : String) (fs : List FsOp) (p : String × String) :
    (processGuest tk receptor dirname fs p).2.1 =
      fs ++ guestFsDelta tk receptor dirname p := by
  have hne : (dirname ++ "/" ++ p.2 ++ ".sdf") ≠ (dirname ++ "/" ++ p.2 ++ ".mol2") :=
    (mol2_ne_sdf (dirname ++ "/" ++ p.2)).symm
  simp only [processGuest, guestFsDelta]
  rw [fsGet_append_write_ne _ _ _ _ hne, fsGet_append_write_eq]
  by_cases h2 : (tk.DockMultiConformerMolecule receptor (preparedMol tk p.1)).2 =
      OEDockingReturnCode_Success <;>
    simp [guestOutMol, h2, List.append_assoc]

theorem processAll_mols (tk : Toolkit) (receptor : Receptor) (dirname : String) :
    ∀ (ps : List (String × String)) (fs : List FsOp),
      (processAll tk receptor dirname fs ps).1 =
        ps.map (fun p => guestOutMol tk receptor p.1) := by
  intro ps
  induction ps with
  | nil => intro fs; rfl
  | cons p rest ih =>
    intro fs
    simp only [processAll, List.map_cons]
    rw [processGuest_outmol, ih]

theorem processAll_fs (tk : Toolkit) (receptor : Receptor) (dirname : String) :
    ∀ (ps : List (String × String)) (fs : List FsOp),
      (processAll tk receptor dirname fs ps).2.1 =
        fs ++ (ps.map (guestFsDelta tk receptor dirname)).flatten := by
  intro ps
  induction ps with
  | nil => intro fs; simp [processAll]
  | cons p rest ih =>
    intro fs
    simp only [processAll, List.map_cons, List.flatten_cons]
    rw [ih, processGuest_fs, List.append_assoc]

theorem processAll_ev (tk : Toolkit) (receptor : Receptor) (dirname : String) :
    ∀ (ps : List (String × String)) (fs : List FsOp),
      (processAll tk receptor dirname fs ps).2.2 =
        (ps.map (guestEvDelta tk receptor)).flatten := by
  intro ps
  induction ps with
  | nil => intro fs; rfl
  | cons p rest ih =>
    intro fs
    simp only [processAll, List.map_cons, List.flatten_cons]
    rw [ih, processGuest_ev]

/-! ### Facts about the per-guest deltas -/

theorem chargeCall_mem_guestEv (tk : Toolkit) (receptor : Receptor)
    (p : String × String) : Event.chargeCall p.2 ∈ guestEvDelta tk receptor p := by
  by_cases h1 : (omegaResult tk p.1).2 <;> simp [guestEvDelta, h1]

theorem dockAttempt_mem_guestEv (tk : Toolkit) (receptor : Receptor)
    (p : String × String) : Event.dockAttempt p.2 ∈ guestEvDelta tk receptor p := by
  by_cases h1 : (omegaResult tk p.1).2 <;> simp [guestEvDelta, h1]

theorem omegaFail_print_mem_guestEv (tk : Toolkit) (receptor : Receptor)
    (p : String × String) (h : (omegaResult tk p.1).2 = false) :
    Event.printed ("Error generating conformers for " ++ p.1 ++ ", " ++ p.2 ++ ".") ∈
      guestEvDelta tk receptor p := by
  simp [guestEvDelta, h]

theorem guestEv_countP_dock (tk : Toolkit) (receptor : Receptor)
    (p : String × String) :
    (guestEvDelta tk receptor p).countP isDockAttempt = 1 := by
  by_cases h1 : (omegaResult tk p.1).2 <;>
    by_cases h2 : (tk.DockMultiConformerMolecule receptor (preparedMol tk p.1)).2 =
        OEDockingReturnCode_Success <;>
      simp [guestEvDelta, h1, h2, List.countP_cons, isDockAttempt]

theorem guestEv_shape (tk : Toolkit) (receptor : Receptor) (p : String × String)
    (e : Event) (he : e ∈ guestEvDelta tk receptor p) :
    isStageMark e = false ∧ isSysCall e = false := by
  cases e with
  | stage n =>
    by_cases h1 : (omegaResult tk p.1).2 <;>
      by_cases h2 : (tk.DockMultiConformerMolecule receptor (preparedMol tk p.1)).2 =
          OEDockingReturnCode_Success <;>
        simp [guestEvDelta, h1, h2] at he
  | sysCall c =>
    by_cases h1 : (omegaResult tk p.1).2 <;>
      by_cases h2 : (tk.DockMultiConformerMolecule receptor (preparedMol tk p.1)).2 =
          OEDockingReturnCode_Success <;>
        simp [guestEvDelta, h1, h2] at he
  | printed s => exact ⟨rfl, rfl⟩
  | omegaCall n => exact ⟨rfl, rfl⟩
  | chargeCall n => exact ⟨rfl, rfl⟩
  | dockAttempt n => exact ⟨rfl, rfl⟩

theorem loopEv_countP_dock (tk : Toolkit) (receptor : Receptor) :
    ∀ (ps : List (String × String)),
      ((ps.map (guestEvDelta tk receptor)).flatten).countP isDockAttempt =
        ps.length := by
  intro ps
  induction ps with
  | nil => rfl
  | cons p rest ih =>
    simp only [List.map_cons, List.flatten_cons, List.countP_append, ih,
      guestEv_countP_dock, List.length_cons]
    omega

theorem loopEv_shape (tk : Toolkit) (receptor : Receptor)
    (ps : List (String × String)) (e : Event)
    (he : e ∈ (ps.map (guestEvDelta tk receptor)).flatten) :
    isStageMark e = false ∧ isSysCall e = false := by
  rcases List.mem_flatten.mp he with ⟨ev, hev, hmem⟩
  rcases List.mem_map.mp hev with ⟨p, _, rfl⟩
  exact guestEv_shape tk receptor p e hmem

theorem write_mol2_mem_guestFs (tk : Toolkit) (receptor : Receptor)
    (dirname : String) (p : String × String) :
    FsOp.write (dirname ++ "/" ++ p.2 ++ ".mol2")
      (tk.OEWriteMolecule ".mol2" (guestOutMol tk receptor p.1)) ∈
      guestFsDelta tk receptor dirname p := by
  simp [guestFsDelta]

theorem write_sdf_mem_guestFs (tk : Toolkit) (receptor : Receptor)
    (dirname : String) (p : String × String) :
    FsOp.write (dirname ++ "/" ++ p.2 ++ ".sdf")
      (tk.OEWriteMolecule ".sdf" (guestOutMol tk receptor p.1)) ∈
      guestFsDelta tk receptor dirname p := by
  simp [guestFsDelta]

theorem guestFs_writesOnly (tk : Toolkit) (receptor : Receptor)
    (dirname : String) (p : String × String) :
    writesOnly (guestFsDelta tk receptor dirname p) := by
  intro q hq
  simp [guestFsDelta] at hq

theorem loopFs_writesOnly (tk : Toolkit) (receptor : Receptor)
    (dirname : String) (ps : List (String × String)) :
    writesOnly ((ps.map (guestFsDelta tk receptor dirname)).flatten) := by
  intro q hq
  rcases List.mem_flatten.mp hq with ⟨ops, hops, hmem⟩
  rcases List.mem_map.mp hops with ⟨p, _, rfl⟩
  exact guestFs_writesOnly tk receptor dirname p q hmem

theorem fsGet_append_guestFs_mol2 (tk : Toolkit) (receptor : Receptor)
    (dirname : String) (p : String × String) (l : List FsOp) :
    fsGet (l ++ guestFsDelta tk receptor dirname p) (dirname ++ "/" ++ p.2 ++ ".mol2") =
      some ((tk.OEWriteMolecule ".mol2" (guestOutMol tk receptor p.1)).map
        (fun line => strReplace line "<0>" p.2)) := by
  have hne : (dirname ++ "/" ++ p.2 ++ ".sdf") ≠ (dirname ++ "/" ++ p.2 ++ ".mol2") :=
    (mol2_ne_sdf (dirname ++ "/" ++ p.2)).symm
  show fsGet (l ++ [_, _, _]) _ = _
  rw [show (l ++ [FsOp.write (dirname ++ "/" ++ p.2 ++ ".mol2")
        (tk.OEWriteMolecule ".mol2" (guestOutMol tk receptor p.1)),
      FsOp.write (dirname ++ "/" ++ p.2 ++ ".sdf")
        (tk.OEWriteMolecule ".sdf" (guestOutMol tk receptor p.1)),
      FsOp.write (dirname ++ "/" ++ p.2 ++ ".mol2")
        ((tk.OEWriteMolecule ".mol2" (guestOutMol tk receptor p.1)).map
          (fun line => strReplace line "<0>" p.2))]) =
      (l ++ [FsOp.write (dirname ++ "/" ++ p.2 ++ ".mol2")
        (tk.OEWriteMolecule ".mol2" (guestOutMol tk receptor p.1)),
      FsOp.write (dirname ++ "/" ++ p.2 ++ ".sdf")
        (tk.OEWriteMolecule ".sdf" (guestOutMol tk receptor p.1))]) ++
      [FsOp.write (dirname ++ "/" ++ p.2 ++ ".mol2")
        ((tk.OEWriteMolecule ".mol2" (guestOutMol tk receptor p.1)).map
          (fun line => strReplace line "<0>" p.2))] from by
    simp [List.append_assoc]]
  exact fsGet_append_write_eq _ _ _

theorem fsGet_append_guestFs_sdf (tk : Toolkit) (receptor : Receptor)
    (dirname : String) (p : String × String) (l : List FsOp) :
    fsGet (l ++ guestFsDelta tk receptor dirname p) (dirname ++ "/" ++ p.2 ++ ".sdf") =
      some (tk.OEWriteMolecule ".sdf" (guestOutMol tk receptor p.1)) := by
  have hne : (dirname ++ "/" ++ p.2 ++ ".mol2") ≠ (dirname ++ "/" ++ p.2 ++ ".sdf") :=
    mol2_ne_sdf (dirname ++ "/" ++ p.2)
  show fsGet (l ++ [_, _, _]) _ = _
  rw [show ∀ (a b c : FsOp), l ++ [a, b, c] = ((l ++ [a]) ++ [b]) ++ [c] from by
    intro a b c; simp [List.append_assoc]]
  rw [fsGet_append_write_ne _ _ _ _ hne, fsGet_append_write_eq]

/-! ### Conformer-deletion lemma -/

theorem enumFrom_filter_zero (l : List Nat) :
    ∀ n : Nat, n ≠ 0 →
      (List.enumFrom n l).filter (fun kc => kc.1 == 0) = [] := by
  induction l with
  | nil => intro n _; rfl
  | cons a rest ih =>
    intro n hn
    simp only [List.enumFrom, List.filter]
    have : (n == 0) = false := by
      cases n with
      | zero => exact absurd rfl hn
      | succ m => rfl
    simp only [this]
    exact ih (n + 1) (Nat.succ_ne_zero n)

theorem deleteExtraConfs_eq_take (m : Mol) :
    deleteExtraConfs m = { m with confs := m.confs.take 1 } := by
  cases m with
  | mk tag confs charges =>
    simp only [deleteExtraConfs]
    congr 1
    cases confs with
    | nil => rfl
    | cons a rest =>
      simp only [List.enum, List.enumFrom, List.filter, List.take]
      rw [enumFrom_filter_zero rest 1 (by decide)]
      rfl

/-! ### List helpers for last-element reasoning -/

theorem zip_getLastD {α β : Type} :
    ∀ (a : List α) (b : List β), a.length = b.length → ∀ (d1 : α) (d2 : β),
      (a.zip b).getLastD (d1, d2) = (a.getLastD d1, b.getLastD d2) := by
  intro a
  induction a with
  | nil =>
    intro b hb d1 d2
    have hbn : b = [] := List.length_eq_zero.mp hb.symm
    subst hbn
    rfl
  | cons x a' ih =>
    intro b hb d1 d2
    cases b with
    | nil => cases hb
    | cons y b' =>
      have hlen : a'.length = b'.length := by simpa using hb
      simp only [List.zip_cons_cons, List.getLastD_cons]
      exact ih b' hlen x y

theorem snoc_getLastD {α : Type} :
    ∀ (l : List α), l ≠ [] → ∀ (d : α), l.dropLast ++ [l.getLastD d] = l := by
  intro l
  induction l with
  | nil => intro h; cases h rfl
  | cons x l' ih =>
    intro _ d
    cases l' with
    | nil => rfl
    | cons y l'' =>
      have h2 := ih (List.cons_ne_nil y l'') x
      rw [List.getLastD_cons] at h2
      simp only [List.dropLast_cons₂, List.getLastD_cons, List.cons_append]
      exact congrArg (x :: ·) h2

theorem getLastD_range_map {α : Type} (f : Nat → α) (d : α) (n : Nat)
    (h : n ≠ 0) : ((List.range n).map f).getLastD d = f (n - 1) := by
  obtain ⟨m, rfl⟩ := Nat.exists_eq_succ_of_ne_zero h
  rw [List.range_succ, List.map_append]
  simp

/-! ### Oxaliplatin-cell equations -/

theorem handleOx_fs (tk : Toolkit) (receptor : Receptor)
    (smiles names : List String) (fs : List FsOp) :
    (handleOxaliplatin tk receptor smiles names fs).1 =
      fs ++ oxFsDelta tk receptor smiles names := by
  simp only [handleOxaliplatin, oxFsDelta, oxOutMol]
  rw [fsGet_append_write_eq]
  simp only [Option.getD_some]
  rw [fsGet_append_write_eq]
  simp [List.append_assoc]

theorem handleOx_ev (tk : Toolkit) (receptor : Receptor)
    (smiles names : List String) (fs : List FsOp) :
    (handleOxaliplatin tk receptor smiles names fs).2 =
      [Event.sysCall "obabel -ismi oxaliplatin.smi -omol2 -O tmp.mol2 --gen3d",
       Event.sysCall "rm oxaliplatin.smi",
       Event.sysCall "rm tmp.mol2",
       Event.dockAttempt (names.getLastD "")] := rfl

/-! ### Stage equations for a notebook run -/

theorem run_OA (tk : Toolkit) (a b c g i : List String) :
    (notebookRun tk a b c g i).OA = (tk.OEReadMolecule a).1 := rfl

theorem run_TEMOA (tk : Toolkit) (a b c g i : List String) :
    (notebookRun tk a b c g i).TEMOA = (tk.OEReadMolecule b).1 := rfl

theorem run_CB8 (tk : Toolkit) (a b c g i : List String) :
    (notebookRun tk a b c g i).CB8 = (tk.OEReadMolecule c).1 := rfl

theorem run_receptors (tk : Toolkit) (a b c g i : List String) :
    (notebookRun tk a b c g i).receptors =
      prepareReceptors tk (tk.OEReadMolecule a).1 (tk.OEReadMolecule b).1
        (tk.OEReadMolecule c).1 := rfl

theorem run_cb8Smiles (tk : Toolkit) (a b c g i : List String) :
    (notebookRun tk a b c g i).cb8Smiles = i.map firstToken := rfl

theorem run_cb8Names (tk : Toolkit) (a b c g i : List String) :
    (notebookRun tk a b c g i).cb8Names =
      (List.range (i.map firstToken).length).map
        (fun k => "CB8-G" ++ toString k) := rfl

theorem run_dockCB8 (tk : Toolkit) (a b c g i : List String) :
    (notebookRun tk a b c g i).dockCB8 = receptorFor tk a b c "CB8" := rfl

theorem run_ev3 (tk : Toolkit) (a b c g i : List String) :
    (notebookRun tk a b c g i).ev3 =
      ((octaPairs "OA" g).map
        (guestEvDelta tk (receptorFor tk a b c "OA"))).flatten ++
      ((octaPairs "TEMOA" g).map
        (guestEvDelta tk (receptorFor tk a b c "TEMOA"))).flatten := by
  simp only [notebookRun, dockOctaAcids, dockGuestsTo, octaPairs, receptorFor]
  rw [processAll_ev, processAll_ev]

theorem run_ev4 (tk : Toolkit) (a b c g i : List String) :
    (notebookRun tk a b c g i).ev4 =
      ((cb8Pairs i).map
        (guestEvDelta tk (receptorFor tk a b c "CB8"))).flatten := by
  simp only [notebookRun, dockCB8guests, cb8Pairs, receptorFor]
  rw [processAll_ev]

theorem run_ev5 (tk : Toolkit) (a b c g i : List String) :
    (notebookRun tk a b c g i).ev5 =
      [Event.sysCall "obabel -ismi oxaliplatin.smi -omol2 -O tmp.mol2 --gen3d",
       Event.sysCall "rm oxaliplatin.smi",
       Event.sysCall "rm tmp.mol2",
       Event.dockAttempt
         (((List.range (i.map firstToken).length).map
           (fun k => "CB8-G" ++ toString k)).getLastD "")] := rfl

theorem run_fs3 (tk : Toolkit) (a b c g i : List String) :
    (notebookRun tk a b c g i).fs3 =
      (loadHosts tk [] a b c).2 ++
        ((octaPairs "OA" g).map
          (guestFsDelta tk (receptorFor tk a b c "OA") "./OctaAcidsAndGuests")).flatten ++
        ((octaPairs "TEMOA" g).map
          (guestFsDelta tk (receptorFor tk a b c "TEMOA") "./OctaAcidsAndGuests")).flatten := by
  simp only [notebookRun, dockOctaAcids, dockGuestsTo, octaPairs, receptorFor]
  rw [processAll_fs, processAll_fs]

theorem run_fs4 (tk : Toolkit) (a b c g i : List String) :
    (notebookRun tk a b c g i).fs4 =
      (notebookRun tk a b c g i).fs3 ++
        ((cb8Pairs i).map
          (guestFsDelta tk (receptorFor tk a b c "CB8") "./CB8AndGuests")).flatten := by
  simp only [notebookRun, dockCB8guests, dockOctaAcids, dockGuestsTo, cb8Pairs,
    receptorFor]
  rw [processAll_fs]

theorem run_fs (tk : Toolkit) (a b c g i : List String) :
    (notebookRun tk a b c g i).fs =
      (notebookRun tk a b c g i).fs4 ++
        oxFsDelta tk (receptorFor tk a b c "CB8") (i.map firstToken)
          ((List.range (i.map firstToken).length).map
            (fun k => "CB8-G" ++ toString k)) := by
  simp only [notebookRun, dockCB8guests, receptorFor]
  rw [handleOx_fs]

theorem hostFs_writesOnly (tk : Toolkit) (a b c : List String) :
    writesOnly (loadHosts tk [] a b c).2 := by
  intro q hq
  simp [loadHosts] at hq

theorem run_fs4_writesOnly (tk : Toolkit) (a b c g i : List String) :
    writesOnly (notebookRun tk a b c g i).fs4 := by
  rw [run_fs4, run_fs3]
  exact writesOnly_append
    (writesOnly_append
      (writesOnly_append (hostFs_writesOnly tk a b c)
        (loopFs_writesOnly tk (receptorFor tk a b c "OA") "./OctaAcidsAndGuests"
          (octaPairs "OA" g)))
      (loopFs_writesOnly tk (receptorFor tk a b c "TEMOA") "./OctaAcidsAndGuests"
        (octaPairs "TEMOA" g)))
    (loopFs_writesOnly tk (receptorFor tk a b c "CB8") "./CB8AndGuests"
      (cb8Pairs i))

/-! ### Run-level per-guest membership helpers -/

theorem pair_mem (lines : List String) (nameOf : Nat → String) (k : Nat)
    (hk : k < lines.length) :
    ((lines.map firstToken).getD k "", nameOf k) ∈
      (lines.map firstToken).zip
        ((List.range (lines.map firstToken).length).map nameOf) := by
  have h1 : k < (lines.map firstToken).length := by simpa using hk
  have h2 : k < ((List.range (lines.map firstToken).length).map nameOf).length := by
    simpa using h1
  have hz : k < ((lines.map firstToken).zip
      ((List.range (lines.map firstToken).length).map nameOf)).length := by
    rw [List.length_zip]
    exact lt_min h1 h2
  have he : ((lines.map firstToken).zip
      ((List.range (lines.map firstToken).length).map nameOf))[k] =
      ((lines.map firstToken)[k],
        ((List.range (lines.map firstToken).length).map nameOf)[k]) :=
    List.getElem_zip
  have hmem := List.getElem_mem hz
  rw [he] at hmem
  have hc1 : (lines.map firstToken)[k] = (lines.map firstToken).getD k "" :=
    (List.getD_eq_getElem _ _ h1).symm
  have hc2 : ((List.range (lines.map firstToken).length).map nameOf)[k] =
      nameOf k := by
    rw [List.getElem_map]
    congr 1
    exact List.getElem_range k (by simpa using h1)
  rw [hc1, hc2] at hmem
  exact hmem

theorem cb8_pair_mem (i : List String) (k : Nat) (hk : k < i.length) :
    ((i.map firstToken).getD k "", "CB8-G" ++ toString k) ∈ cb8Pairs i :=
  pair_mem i (fun k => "CB8-G" ++ toString k) k hk

theorem octa_pair_mem (hostname : String) (g : List String) (k : Nat)
    (hk : k < g.length) :
    ((g.map firstToken).getD k "", (hostname ++ "-") ++ ("G" ++ toString k)) ∈
      octaPairs hostname g :=
  pair_mem g (fun k => (hostname ++ "-") ++ ("G" ++ toString k)) k hk

theorem cb8_guestEv_mem (tk : Toolkit) (a b c g i : List String) (e : Event)
    (p : String × String) (hp : p ∈ cb8Pairs i)
    (he : e ∈ guestEvDelta tk (receptorFor tk a b c "CB8") p) :
    e ∈ (notebookRun tk a b c g i).ev4 := by
  rw [run_ev4]
  exact List.mem_flatten.mpr ⟨_, List.mem_map_of_mem _ hp, he⟩

theorem octaOA_guestEv_mem (tk : Toolkit) (a b c g i : List String) (e : Event)
    (p : String × String) (hp : p ∈ octaPairs "OA" g)
    (he : e ∈ guestEvDelta tk (receptorFor tk a b c "OA") p) :
    e ∈ (notebookRun tk a b c g i).ev3 := by
  rw [run_ev3]
  exact List.mem_append.mpr
    (Or.inl (List.mem_flatten.mpr ⟨_, List.mem_map_of_mem _ hp, he⟩))

theorem octaTEMOA_guestEv_mem (tk : Toolkit) (a b c g i : List String)
    (e : Event) (p : String × String) (hp : p ∈ octaPairs "TEMOA" g)
    (he : e ∈ guestEvDelta tk (receptorFor tk a b c "TEMOA") p) :
    e ∈ (notebookRun tk a b c g i).ev3 := by
  rw [run_ev3]
  exact List.mem_append.mpr
    (Or.inr (List.mem_flatten.mpr ⟨_, List.mem_map_of_mem _ hp, he⟩))

theorem cb8_guestFs_mem (tk : Toolkit) (a b c g i : List String) (op : FsOp)
    (p : String × String) (hp : p ∈ cb8Pairs i)
    (hop : op ∈ guestFsDelta tk (receptorFor tk a b c "CB8") "./CB8AndGuests" p) :
    op ∈ (notebookRun tk a b c g i).fs4 := by
  rw [run_fs4]
  exact List.mem_append.mpr
    (Or.inr (List.mem_flatten.mpr ⟨_, List.mem_map_of_mem _ hp, hop⟩))

/-! ## Claim C1 -/

/-- C1: in the guest loop shared by the OA/TEMOA and CB8 docking stages,
if `dock.DockMultiConformerMolecule` does not return
`OEDockingReturnCode_Success` the only recovery is printing the warning
and writing the un-docked input pose (conformers trimmed to the first
one) to the mol2 and SDF files — there is exactly one docking attempt
and the guest is not skipped or retried; if it returns success the
scored, annotated docked pose is written instead and no further event is
emitted after the docking attempt. -/
theorem C1_dock_failure_fallback (tk : Toolkit) (receptor : Receptor)
    (dirname : String) (fs : List FsOp) (p : String × String) :
    ((tk.DockMultiConformerMolecule receptor (preparedMol tk p.1)).2 ≠
        OEDockingReturnCode_Success →
      (processGuest tk receptor dirname fs p).1 =
          deleteExtraConfs (preparedMol tk p.1) ∧
        Event.printed ("Docking failed for " ++ p.2 ++ "; storing input pose.") ∈
          (processGuest tk receptor dirname fs p).2.2 ∧
        (processGuest tk receptor dirname fs p).2.2 =
          (if (omegaResult tk p.1).2 then [Event.omegaCall p.2]
           else [Event.omegaCall p.2,
             Event.printed ("Error generating conformers for " ++ p.1 ++ ", " ++
               p.2 ++ ".")]) ++
          [Event.chargeCall p.2] ++ [Event.dockAttempt p.2] ++
          [Event.printed ("Docking failed for " ++ p.2 ++ "; storing input pose.")] ∧
        (processGuest tk receptor dirname fs p).2.2.countP isDockAttempt = 1 ∧
        fsGet (processGuest tk receptor dirname fs p).2.1
            (dirname ++ "/" ++ p.2 ++ ".mol2") =
          some ((tk.OEWriteMolecule ".mol2"
            (deleteExtraConfs (preparedMol tk p.1))).map
              (fun line => strReplace line "<0>" p.2)) ∧
        fsGet (processGuest tk receptor dirname fs p).2.1
            (dirname ++ "/" ++ p.2 ++ ".sdf") =
          some (tk.OEWriteMolecule ".sdf"
            (deleteExtraConfs (preparedMol tk p.1)))) ∧
    ((tk.DockMultiConformerMolecule receptor (preparedMol tk p.1)).2 =
        OEDockingReturnCode_Success →
      (processGuest tk receptor dirname fs p).1 =
          tk.AnnotatePose (tk.OESetSDScore
            (tk.DockMultiConformerMolecule receptor (preparedMol tk p.1)).1) ∧
        (processGuest tk receptor dirname fs p).2.2 =
          (if (omegaResult tk p.1).2 then [Event.omegaCall p.2]
           else [Event.omegaCall p.2,
             Event.printed ("Error generating conformers for " ++ p.1 ++ ", " ++
               p.2 ++ ".")]) ++
          [Event.chargeCall p.2] ++ [Event.dockAttempt p.2] ∧
        fsGet (processGuest tk receptor dirname fs p).2.1
            (dirname ++ "/" ++ p.2 ++ ".sdf") =
          some (tk.OEWriteMolecule ".sdf" (tk.AnnotatePose (tk.OESetSDScore
            (tk.DockMultiConformerMolecule receptor (preparedMol tk p.1)).1)))) := by
  constructor
  · intro h
    have hout : guestOutMol tk receptor p.1 = deleteExtraConfs (preparedMol tk p.1) := by
      simp [guestOutMol, h]
    refine ⟨by rw [processGuest_outmol, hout], ?_, ?_, ?_, ?_, ?_⟩
    · rw [processGuest_ev]
      by_cases h1 : (omegaResult tk p.1).2 <;> simp [guestEvDelta, h1, h]
    · rw [processGuest_ev]
      simp [guestEvDelta, h]
    · rw [processGuest_ev, guestEv_countP_dock]
    · rw [processGuest_fs, fsGet_append_guestFs_mol2, hout]
    · rw [processGuest_fs, fsGet_append_guestFs_sdf, hout]
  · intro h
    have hout : guestOutMol tk receptor p.1 =
        tk.AnnotatePose (tk.OESetSDScore
          (tk.DockMultiConformerMolecule receptor (preparedMol tk p.1)).1) := by
      simp [guestOutMol, h]
    refine ⟨by rw [processGuest_outmol, hout], ?_, ?_⟩
    · rw [processGuest_ev]
      simp [guestEvDelta, h]
    · rw [processGuest_fs, fsGet_append_guestFs_sdf, hout]

/-- Witness for C1: both branches applied at concrete inputs — the
failing-dock toolkit takes the fallback, the succeeding one writes the
docked pose. -/
theorem C1_dock_failure_fallback_w :
    ((failTk.DockMultiConformerMolecule sampleReceptor
        (preparedMol failTk "CC")).2 ≠ OEDockingReturnCode_Success ∧
      (processGuest failTk sampleReceptor "./CB8AndGuests" [] ("CC", "CB8-G0")).1 =
        deleteExtraConfs (preparedMol failTk "CC")) ∧
    ((sampleTk.DockMultiConformerMolecule sampleReceptor
        (preparedMol sampleTk "CC")).2 = OEDockingReturnCode_Success ∧
      (processGuest sampleTk sampleReceptor "./CB8AndGuests" [] ("CC", "CB8-G0")).1 =
        sampleTk.AnnotatePose (sampleTk.OESetSDScore
          (sampleTk.DockMultiConformerMolecule sampleReceptor
            (preparedMol sampleTk "CC")).1)) :=
  ⟨⟨by decide,
    ((C1_dock_failure_fallback failTk sampleReceptor "./CB8AndGuests" []
      ("CC", "CB8-G0")).1 (by decide)).1⟩,
   ⟨by decide,
    ((C1_dock_failure_fallback sampleTk sampleReceptor "./CB8AndGuests" []
      ("CC", "CB8-G0")).2 (by decide)).1⟩⟩

/-! ## Claim C8 -/

/-- C8: whenever the docking-failure fallback is taken, every conformer
except the first is deleted before writing, so the written fallback
molecule has exactly one conformer — the first conformer Omega
generated — no matter how many conformers Omega produced.  (The
nonemptiness hypothesis reflects that an OpenEye `OEMol` always holds at
least one conformer.) -/
theorem C8_fallback_single_conformer (tk : Toolkit) (receptor : Receptor)
    (dirname : String) (fs : List FsOp) (p : String × String)
    (hfail : (tk.DockMultiConformerMolecule receptor (preparedMol tk p.1)).2 ≠
      OEDockingReturnCode_Success)
    (hne : (omegaResult tk p.1).1 ≠ []) :
    (processGuest tk receptor dirname fs p).1.confs =
        (omegaResult tk p.1).1.take 1 ∧
      (processGuest tk receptor dirname fs p).1.confs.length = 1 ∧
      (processGuest tk receptor dirname fs p).1.confs =
        [(omegaResult tk p.1).1.headD 0] := by
  have hout : (processGuest tk receptor dirname fs p).1 =
      deleteExtraConfs (preparedMol tk p.1) := by
    rw [processGuest_outmol]
    simp [guestOutMol, hfail]
  have hconfs : (preparedMol tk p.1).confs = (omegaResult tk p.1).1 := rfl
  rw [hout, deleteExtraConfs_eq_take]
  cases hcs : (omegaResult tk p.1).1 with
  | nil => exact absurd hcs hne
  | cons x t =>
    refine ⟨?_, ?_, ?_⟩ <;> simp [hconfs, hcs]

/-- Witness for C8: the failing-dock toolkit generates three conformers
and the fallback keeps exactly the first. -/
theorem C8_fallback_single_conformer_w :
    ((failTk.DockMultiConformerMolecule sampleReceptor
        (preparedMol failTk "CC")).2 ≠ OEDockingReturnCode_Success ∧
      (omegaResult failTk "CC").1 ≠ []) ∧
    (processGuest failTk sampleReceptor "./CB8AndGuests" [] ("CC", "CB8-G0")).1.confs =
      [10] :=
  ⟨⟨by decide, by decide⟩, by
    have h := (C8_fallback_single_conformer failTk sampleReceptor "./CB8AndGuests"
      [] ("CC", "CB8-G0") (by decide) (by decide)).2.2
    simpa using h⟩

/-! ## Claim C4 -/

/-- C4: the notebook builds exactly the three receptors OA, TEMOA and
CB8, and every receptor record in the dict is made by passing its host
molecule's three center-of-mass coordinates to `OEMakeReceptor` as the
binding-site hint. -/
theorem C4_receptor_from_center_of_mass (tk : Toolkit) (a b c g i : List String)
    (n : String) (rc : Receptor)
    (h : (n, rc) ∈ (notebookRun tk a b c g i).receptors) :
    ∃ host : Mol,
      (host = (notebookRun tk a b c g i).OA ∨
        host = (notebookRun tk a b c g i).TEMOA ∨
        host = (notebookRun tk a b c g i).CB8) ∧
      rc = tk.OEMakeReceptor host (tk.OEGetCenterOfMass host).1
        (tk.OEGetCenterOfMass host).2.1 (tk.OEGetCenterOfMass host).2.2 := by
  rw [run_receptors] at h
  simp only [prepareReceptors, List.map_cons, List.map_nil, List.mem_cons,
    List.not_mem_nil, or_false, Prod.mk.injEq] at h
  rcases h with ⟨_, hr⟩ | ⟨_, hr⟩ | ⟨_, hr⟩
  · exact ⟨(tk.OEReadMolecule a).1, Or.inl (run_OA tk a b c g i).symm,
      by rw [hr]; rfl⟩
  · exact ⟨(tk.OEReadMolecule b).1, Or.inr (Or.inl (run_TEMOA tk a b c g i).symm),
      by rw [hr]; rfl⟩
  · exact ⟨(tk.OEReadMolecule c).1, Or.inr (Or.inr (run_CB8 tk a b c g i).symm),
      by rw [hr]; rfl⟩

/-- Witness for C4 at the OA receptor of a concrete run. -/
theorem C4_receptor_from_center_of_mass_w :
    ("OA", buildReceptor sampleTk (sampleTk.OEReadMolecule oaPdbSample).1) ∈
        (notebookRun sampleTk oaPdbSample temoaPdbSample cb8SdfSample gibbSample
          isaacsSample).receptors ∧
      ∃ host : Mol,
        (host = (notebookRun sampleTk oaPdbSample temoaPdbSample cb8SdfSample
            gibbSample isaacsSample).OA ∨
          host = (notebookRun sampleTk oaPdbSample temoaPdbSample cb8SdfSample
            gibbSample isaacsSample).TEMOA ∨
          host = (notebookRun sampleTk oaPdbSample temoaPdbSample cb8SdfSample
            gibbSample isaacsSample).CB8) ∧
        buildReceptor sampleTk (sampleTk.OEReadMolecule oaPdbSample).1 =
          sampleTk.OEMakeReceptor host (sampleTk.OEGetCenterOfMass host).1
            (sampleTk.OEGetCenterOfMass host).2.1
            (sampleTk.OEGetCenterOfMass host).2.2 :=
  ⟨by decide,
   C4_receptor_from_center_of_mass sampleTk oaPdbSample temoaPdbSample
     cb8SdfSample gibbSample isaacsSample "OA"
     (buildReceptor sampleTk (sampleTk.OEReadMolecule oaPdbSample).1)
     (by decide)⟩

/-! ## Claim C2 -/

/-- C2: the notebook executes exactly the five stages in fixed order
(load hosts, build receptors, dock OA/TEMOA guests, dock CB8 guests,
special-case oxaliplatin), and no stage depends on variables produced by
a later stage: everything produced through stage 3 is unchanged when the
CB8-stage input file changes, and everything produced through stage 2 is
unchanged when the Gibb guest file changes.  (The oxaliplatin stage does
consume the `dock`, `smiles` and `guest_names` values of the CB8 stage —
a forward dependence, not feedback.) -/
theorem C2_five_sequential_stages :
    (∀ (tk : Toolkit) (a b c g i : List String),
      (notebookEvents (notebookRun tk a b c g i)).filter isStageMark =
        [Event.stage 1, Event.stage 2, Event.stage 3, Event.stage 4,
         Event.stage 5]) ∧
    (∀ (tk : Toolkit) (a b c g i i' : List String),
      (notebookRun tk a b c g i).fs3 = (notebookRun tk a b c g i').fs3 ∧
      (notebookRun tk a b c g i).ev3 = (notebookRun tk a b c g i').ev3 ∧
      (notebookRun tk a b c g i).oaMols = (notebookRun tk a b c g i').oaMols ∧
      (notebookRun tk a b c g i).receptors =
        (notebookRun tk a b c g i').receptors) ∧
    (∀ (tk : Toolkit) (a b c g g' i : List String),
      (notebookRun tk a b c g i).fs1 = (notebookRun tk a b c g' i).fs1 ∧
      (notebookRun tk a b c g i).OA = (notebookRun tk a b c g' i).OA ∧
      (notebookRun tk a b c g i).receptors =
        (notebookRun tk a b c g' i).receptors) := by
  refine ⟨?_, ?_, ?_⟩
  · intro tk a b c g i
    have h3 : (notebookRun tk a b c g i).ev3.filter isStageMark = [] := by
      rw [run_ev3]
      refine List.filter_eq_nil_iff.mpr ?_
      intro e he
      rcases List.mem_append.mp he with hm | hm
      · have hsh := (loopEv_shape _ _ _ e hm).1
        simp [hsh]
      · have hsh := (loopEv_shape _ _ _ e hm).1
        simp [hsh]
    have h4 : (notebookRun tk a b c g i).ev4.filter isStageMark = [] := by
      rw [run_ev4]
      refine List.filter_eq_nil_iff.mpr ?_
      intro e he
      have hsh := (loopEv_shape _ _ _ e he).1
      simp [hsh]
    have h5 : (notebookRun tk a b c g i).ev5.filter isStageMark = [] := by
      rw [run_ev5]
      rfl
    simp [notebookEvents, List.filter_append, h3, h4, h5, isStageMark]
  · intro tk a b c g i i'
    exact ⟨rfl, rfl, rfl, rfl⟩
  · intro tk a b c g g' i
    exact ⟨rfl, rfl, rfl⟩

/-! ## Claim C3 -/

/-- C3 counterexample: not every molecule the notebook prepares receives
toolkit-assigned partial charges.  In a concrete run the loaded OA host
still has no charge data (host charging is commented out), the host
mol2 file the notebook writes records an uncharged molecule, and the
oxaliplatin result written over `CB8-G1.mol2` is likewise uncharged —
while the charged CB8-G0 loop guest shows what a charged write looks
like. -/
theorem C3_universal_charging_cex :
    (notebookRun sampleTk oaPdbSample temoaPdbSample cb8SdfSample gibbSample
        isaacsSample).OA.charges = none ∧
    fsGet (notebookRun sampleTk oaPdbSample temoaPdbSample cb8SdfSample
        gibbSample isaacsSample).fs "./OctaAcidsAndGuests/OA.mol2" =
      some [".mol2:file:ATOM OA", "<0>", "uncharged"] ∧
    fsGet (notebookRun sampleTk oaPdbSample temoaPdbSample cb8SdfSample
        gibbSample isaacsSample).fs "./CB8AndGuests/CB8-G1.mol2" =
      some [".mol2:dock[file:CB8 sdf@1,2,3](file:obabel3d:O=Pt)/sd/ann", "<0>",
        "uncharged"] ∧
    fsGet (notebookRun sampleTk oaPdbSample temoaPdbSample cb8SdfSample
        gibbSample isaacsSample).fs "./CB8AndGuests/CB8-G0.mol2" =
      some [".mol2:dock[file:CB8 sdf@1,2,3](smi:CCO/pH)/sd/ann", "CB8-G0",
        "charged"] := by
  exact ⟨by decide, by decide, by decide, by decide⟩

/-- C3 as amended: every guest prepared in the OA/TEMOA and CB8 loops
receives an `OEAssignCharges` call, but the three hosts pass through
stage 1 exactly as read (their charging loop is commented out) and the
oxaliplatin cell performs no charge assignment at all. -/
theorem C3_charge_assignment (tk : Toolkit) (a b c g i : List String) :
    (∀ k, k < g.length →
      Event.chargeCall (("OA" ++ "-") ++ ("G" ++ toString k)) ∈
          (notebookRun tk a b c g i).ev3 ∧
        Event.chargeCall (("TEMOA" ++ "-") ++ ("G" ++ toString k)) ∈
          (notebookRun tk a b c g i).ev3) ∧
    (∀ k, k < i.length →
      Event.chargeCall ("CB8-G" ++ toString k) ∈ (notebookRun tk a b c g i).ev4) ∧
    (notebookRun tk a b c g i).ev5.countP isChargeCall = 0 ∧
    (notebookRun tk a b c g i).OA = (tk.OEReadMolecule a).1 ∧
    (notebookRun tk a b c g i).TEMOA = (tk.OEReadMolecule b).1 ∧
    (notebookRun tk a b c g i).CB8 = (tk.OEReadMolecule c).1 := by
  refine ⟨?_, ?_, ?_, rfl, rfl, rfl⟩
  · intro k hk
    constructor
    · exact octaOA_guestEv_mem tk a b c g i _ _ (octa_pair_mem "OA" g k hk)
        (chargeCall_mem_guestEv _ _ _)
    · exact octaTEMOA_guestEv_mem tk a b c g i _ _ (octa_pair_mem "TEMOA" g k hk)
        (chargeCall_mem_guestEv _ _ _)
  · intro k hk
    exact cb8_guestEv_mem tk a b c g i _ _ (cb8_pair_mem i k hk)
      (chargeCall_mem_guestEv _ _ _)
  · rw [run_ev5]
    rfl

/-- Witness for the amended C3 at a concrete run and guest index. -/
theorem C3_charge_assignment_w :
    (0 < gibbSample.length ∧ 1 < isaacsSample.length) ∧
      Event.chargeCall "OA-G0" ∈ (notebookRun sampleTk oaPdbSample
        temoaPdbSample cb8SdfSample gibbSample isaacsSample).ev3 ∧
      Event.chargeCall "CB8-G1" ∈ (notebookRun sampleTk oaPdbSample
        temoaPdbSample cb8SdfSample gibbSample isaacsSample).ev4 :=
  ⟨⟨by decide, by decide⟩,
   ((C3_charge_assignment sampleTk oaPdbSample temoaPdbSample cb8SdfSample
     gibbSample isaacsSample).1 0 (by decide)).1,
   (C3_charge_assignment sampleTk oaPdbSample temoaPdbSample cb8SdfSample
     gibbSample isaacsSample).2.1 1 (by decide)⟩

/-! ## Claim C10 -/

theorem cb8Pairs_length (i : List String) : (cb8Pairs i).length = i.length := by
  simp [cb8Pairs, List.length_zip]

theorem octaPairs_length (hostname : String) (g : List String) :
    (octaPairs hostname g).length = g.length := by
  simp [octaPairs, List.length_zip]

theorem octaOA_guestFs_mem (tk : Toolkit) (a b c g i : List String) (op : FsOp)
    (p : String × String) (hp : p ∈ octaPairs "OA" g)
    (hop : op ∈ guestFsDelta tk (receptorFor tk a b c "OA")
      "./OctaAcidsAndGuests" p) :
    op ∈ (notebookRun tk a b c g i).fs3 := by
  rw [run_fs3]
  exact List.mem_append.mpr (Or.inl (List.mem_append.mpr
    (Or.inr (List.mem_flatten.mpr ⟨_, List.mem_map_of_mem _ hp, hop⟩))))

theorem octaTEMOA_guestFs_mem (tk : Toolkit) (a b c g i : List String)
    (op : FsOp) (p : String × String) (hp : p ∈ octaPairs "TEMOA" g)
    (hop : op ∈ guestFsDelta tk (receptorFor tk a b c "TEMOA")
      "./OctaAcidsAndGuests" p) :
    op ∈ (notebookRun tk a b c g i).fs3 := by
  rw [run_fs3]
  exact List.mem_append.mpr
    (Or.inr (List.mem_flatten.mpr ⟨_, List.mem_map_of_mem _ hp, hop⟩))

theorem isObabel_isSys (e : Event) (h : isObabelCall e = true) :
    isSysCall e = true := by
  cases e <;> simp_all [isObabelCall, isSysCall]

theorem loopEv_countP_obabel (tk : Toolkit) (receptor : Receptor)
    (ps : List (String × String)) :
    ((ps.map (guestEvDelta tk receptor)).flatten).countP isObabelCall = 0 := by
  refine List.countP_eq_zero.mpr ?_
  intro e he habs
  have hsh := (loopEv_shape tk receptor ps e he).2
  rw [isObabel_isSys e habs] at hsh
  cases hsh

/-- C10: in both guest loops, when Omega fails for a guest the notebook
only prints the error and continues — charge assignment and docking are
still attempted for that guest and its mol2/SDF pair is still written;
unconditionally, every SMILES line read produces its docking attempts
and mol2/SDF write pairs (one per CB8 guest in stage 4, one per host in
stage 3 for each OA/TEMOA guest), so no guest is ever skipped. -/
theorem C10_omega_failure_continues (tk : Toolkit) (a b c g i : List String) :
    (∀ k, k < i.length →
      Event.chargeCall ("CB8-G" ++ toString k) ∈ (notebookRun tk a b c g i).ev4 ∧
      Event.dockAttempt ("CB8-G" ++ toString k) ∈ (notebookRun tk a b c g i).ev4 ∧
      (∃ cnt, FsOp.write ("./CB8AndGuests" ++ "/" ++ ("CB8-G" ++ toString k) ++
        ".mol2") cnt ∈ (notebookRun tk a b c g i).fs4) ∧
      (∃ cnt, FsOp.write ("./CB8AndGuests" ++ "/" ++ ("CB8-G" ++ toString k) ++
        ".sdf") cnt ∈ (notebookRun tk a b c g i).fs4) ∧
      ((omegaResult tk ((i.map firstToken).getD k "")).2 = false →
        Event.printed ("Error generating conformers for " ++
          (i.map firstToken).getD k "" ++ ", " ++ ("CB8-G" ++ toString k) ++
          ".") ∈ (notebookRun tk a b c g i).ev4)) ∧
    (∀ j, j < g.length →
      (Event.chargeCall (("OA" ++ "-") ++ ("G" ++ toString j)) ∈
          (notebookRun tk a b c g i).ev3 ∧
        Event.dockAttempt (("OA" ++ "-") ++ ("G" ++ toString j)) ∈
          (notebookRun tk a b c g i).ev3 ∧
        (∃ cnt, FsOp.write ("./OctaAcidsAndGuests" ++ "/" ++
          (("OA" ++ "-") ++ ("G" ++ toString j)) ++ ".mol2") cnt ∈
          (notebookRun tk a b c g i).fs3) ∧
        (∃ cnt, FsOp.write ("./OctaAcidsAndGuests" ++ "/" ++
          (("OA" ++ "-") ++ ("G" ++ toString j)) ++ ".sdf") cnt ∈
          (notebookRun tk a b c g i).fs3) ∧
        ((omegaResult tk ((g.map firstToken).getD j "")).2 = false →
          Event.printed ("Error generating conformers for " ++
            (g.map firstToken).getD j "" ++ ", " ++
            (("OA" ++ "-") ++ ("G" ++ toString j)) ++ ".") ∈
            (notebookRun tk a b c g i).ev3)) ∧
      (Event.chargeCall (("TEMOA" ++ "-") ++ ("G" ++ toString j)) ∈
          (notebookRun tk a b c g i).ev3 ∧
        Event.dockAttempt (("TEMOA" ++ "-") ++ ("G" ++ toString j)) ∈
          (notebookRun tk a b c g i).ev3 ∧
        (∃ cnt, FsOp.write ("./OctaAcidsAndGuests" ++ "/" ++
          (("TEMOA" ++ "-") ++ ("G" ++ toString j)) ++ ".mol2") cnt ∈
          (notebookRun tk a b c g i).fs3) ∧
        (∃ cnt, FsOp.write ("./OctaAcidsAndGuests" ++ "/" ++
          (("TEMOA" ++ "-") ++ ("G" ++ toString j)) ++ ".sdf") cnt ∈
          (notebookRun tk a b c g i).fs3) ∧
        ((omegaResult tk ((g.map firstToken).getD j "")).2 = false →
          Event.printed ("Error generating conformers for " ++
            (g.map firstToken).getD j "" ++ ", " ++
            (("TEMOA" ++ "-") ++ ("G" ++ toString j)) ++ ".") ∈
            (notebookRun tk a b c g i).ev3))) ∧
    (notebookRun tk a b c g i).ev4.countP isDockAttempt = i.length ∧
    (notebookRun tk a b c g i).ev3.countP isDockAttempt =
      g.length + g.length := by
  refine ⟨?_, ?_, ?_, ?_⟩
  · intro k hk
    refine ⟨?_, ?_, ?_, ?_, ?_⟩
    · exact cb8_guestEv_mem tk a b c g i _ _ (cb8_pair_mem i k hk)
        (chargeCall_mem_guestEv _ _ _)
    · exact cb8_guestEv_mem tk a b c g i _ _ (cb8_pair_mem i k hk)
        (dockAttempt_mem_guestEv _ _ _)
    · exact ⟨_, cb8_guestFs_mem tk a b c g i _ _ (cb8_pair_mem i k hk)
        (write_mol2_mem_guestFs _ _ _ _)⟩
    · exact ⟨_, cb8_guestFs_mem tk a b c g i _ _ (cb8_pair_mem i k hk)
        (write_sdf_mem_guestFs _ _ _ _)⟩
    · intro hf
      exact cb8_guestEv_mem tk a b c g i _ _ (cb8_pair_mem i k hk)
        (omegaFail_print_mem_guestEv _ _ _ hf)
  · intro j hj
    constructor
    · refine ⟨?_, ?_, ?_, ?_, ?_⟩
      · exact octaOA_guestEv_mem tk a b c g i _ _ (octa_pair_mem "OA" g j hj)
          (chargeCall_mem_guestEv _ _ _)
      · exact octaOA_guestEv_mem tk a b c g i _ _ (octa_pair_mem "OA" g j hj)
          (dockAttempt_mem_guestEv _ _ _)
      · exact ⟨_, octaOA_guestFs_mem tk a b c g i _ _
          (octa_pair_mem "OA" g j hj) (write_mol2_mem_guestFs _ _ _ _)⟩
      · exact ⟨_, octaOA_guestFs_mem tk a b c g i _ _
          (octa_pair_mem "OA" g j hj) (write_sdf_mem_guestFs _ _ _ _)⟩
      · intro hf
        exact octaOA_guestEv_mem tk a b c g i _ _ (octa_pair_mem "OA" g j hj)
          (omegaFail_print_mem_guestEv _ _ _ hf)
    · refine ⟨?_, ?_, ?_, ?_, ?_⟩
      · exact octaTEMOA_guestEv_mem tk a b c g i _ _
          (octa_pair_mem "TEMOA" g j hj) (chargeCall_mem_guestEv _ _ _)
      · exact octaTEMOA_guestEv_mem tk a b c g i _ _
          (octa_pair_mem "TEMOA" g j hj) (dockAttempt_mem_guestEv _ _ _)
      · exact ⟨_, octaTEMOA_guestFs_mem tk a b c g i _ _
          (octa_pair_mem "TEMOA" g j hj) (write_mol2_mem_guestFs _ _ _ _)⟩
      · exact ⟨_, octaTEMOA_guestFs_mem tk a b c g i _ _
          (octa_pair_mem "TEMOA" g j hj) (write_sdf_mem_guestFs _ _ _ _)⟩
      · intro hf
        exact octaTEMOA_guestEv_mem tk a b c g i _ _
          (octa_pair_mem "TEMOA" g j hj) (omegaFail_print_mem_guestEv _ _ _ hf)
  · rw [run_ev4, loopEv_countP_dock, cb8Pairs_length]
  · rw [run_ev3, List.countP_append, loopEv_countP_dock, loopEv_countP_dock,
      octaPairs_length, octaPairs_length]

/-- Witness for C10: with the Omega-failing toolkit both the OA/TEMOA
guest and the oxaliplatin-like CB8 guest still get charged, docked and
written, and the error messages are printed. -/
theorem C10_omega_failure_continues_w :
    (1 < isaacsSample.length ∧
      (omegaResult omegaFailTk ((isaacsSample.map firstToken).getD 1 "")).2 =
        false ∧
      0 < gibbSample.length ∧
      (omegaResult omegaFailTk ((gibbSample.map firstToken).getD 0 "")).2 =
        false) ∧
    Event.printed ("Error generating conformers for O=Pt, CB8-G1.") ∈
      (notebookRun omegaFailTk oaPdbSample temoaPdbSample cb8SdfSample
        gibbSample isaacsSample).ev4 ∧
    Event.chargeCall "CB8-G1" ∈ (notebookRun omegaFailTk oaPdbSample
      temoaPdbSample cb8SdfSample gibbSample isaacsSample).ev4 ∧
    Event.printed ("Error generating conformers for CC, OA-G0.") ∈
      (notebookRun omegaFailTk oaPdbSample temoaPdbSample cb8SdfSample
        gibbSample isaacsSample).ev3 ∧
    Event.chargeCall "TEMOA-G0" ∈ (notebookRun omegaFailTk oaPdbSample
      temoaPdbSample cb8SdfSample gibbSample isaacsSample).ev3 :=
  ⟨⟨by decide, by decide, by decide, by decide⟩,
   ((C10_omega_failure_continues omegaFailTk oaPdbSample temoaPdbSample
     cb8SdfSample gibbSample isaacsSample).1 1 (by decide)).2.2.2.2 (by decide),
   ((C10_omega_failure_continues omegaFailTk oaPdbSample temoaPdbSample
     cb8SdfSample gibbSample isaacsSample).1 1 (by decide)).1,
   (((C10_omega_failure_continues omegaFailTk oaPdbSample temoaPdbSample
     cb8SdfSample gibbSample isaacsSample).2.1 0 (by decide)).1).2.2.2.2
     (by decide),
   (((C10_omega_failure_continues omegaFailTk oaPdbSample temoaPdbSample
     cb8SdfSample gibbSample isaacsSample).2.1 0 (by decide)).2).1⟩

/-! ## Claim C5 -/

/-- C5: there is exactly one obabel special-case call in the whole
notebook trace; it happens in the oxaliplatin stage (the guest loops
emit no system calls, the oxaliplatin cell emits no Omega call), and —
under the recorded behaviour that Omega fails on the oxaliplatin
SMILES — the CB8 loop printed the conformer-generation error for
exactly that last guest, which is why the separate openbabel branch
exists. -/
theorem C5_oxaliplatin_obabel (tk : Toolkit) (a b c g i : List String)
    (hne : i ≠ [])
    (hfail : (omegaResult tk ((i.map firstToken).getD (i.length - 1) "")).2 =
      false) :
    (notebookEvents (notebookRun tk a b c g i)).countP isObabelCall = 1 ∧
    (notebookRun tk a b c g i).ev5.countP isObabelCall = 1 ∧
    (notebookRun tk a b c g i).ev4.countP isObabelCall = 0 ∧
    (notebookRun tk a b c g i).ev5.countP isOmegaCall = 0 ∧
    Event.printed ("Error generating conformers for " ++
      (i.map firstToken).getD (i.length - 1) "" ++ ", " ++
      ("CB8-G" ++ toString (i.length - 1)) ++ ".") ∈
      (notebookRun tk a b c g i).ev4 := by
  have hk : i.length - 1 < i.length :=
    Nat.sub_lt (List.length_pos.mpr hne) Nat.one_pos
  have h5 : (notebookRun tk a b c g i).ev5.countP isObabelCall = 1 := by
    rw [run_ev5]
    rfl
  have h4 : (notebookRun tk a b c g i).ev4.countP isObabelCall = 0 := by
    rw [run_ev4]
    exact loopEv_countP_obabel _ _ _
  have h3 : (notebookRun tk a b c g i).ev3.countP isObabelCall = 0 := by
    rw [run_ev3, List.countP_append, loopEv_countP_obabel, loopEv_countP_obabel]
  refine ⟨?_, h5, h4, ?_, ?_⟩
  · simp [notebookEvents, List.countP_append, h3, h4, h5, isObabelCall]
  · rw [run_ev5]
    rfl
  · exact cb8_guestEv_mem tk a b c g i _ _ (cb8_pair_mem i (i.length - 1) hk)
      (omegaFail_print_mem_guestEv _ _ _ hfail)

/-- Witness for C5 with the Omega-failing toolkit: the whole trace holds
exactly one obabel call and the error print for the last CB8 guest. -/
theorem C5_oxaliplatin_obabel_w :
    (isaacsSample ≠ [] ∧
      (omegaResult omegaFailTk ((isaacsSample.map firstToken).getD
        (isaacsSample.length - 1) "")).2 = false) ∧
    (notebookEvents (notebookRun omegaFailTk oaPdbSample temoaPdbSample
      cb8SdfSample gibbSample isaacsSample)).countP isObabelCall = 1 :=
  ⟨⟨by decide, by decide⟩,
   (C5_oxaliplatin_obabel omegaFailTk oaPdbSample temoaPdbSample cb8SdfSample
     gibbSample isaacsSample (by decide) (by decide)).1⟩

/-! ## Oxaliplatin-delta lookup helpers (shared by C6 and C9) -/

theorem cb8_dir_path (x : String) :
    "./CB8AndGuests" ++ "/" ++ x = "./CB8AndGuests/" ++ x := by
  have h : "./CB8AndGuests" ++ "/" = "./CB8AndGuests/" := by decide
  rw [h]

theorem fsGet_append_oxDelta_mol2 (tk : Toolkit) (receptor : Receptor)
    (smiles names : List String) (l : List FsOp) :
    fsGet (l ++ oxFsDelta tk receptor smiles names)
        ("./CB8AndGuests/" ++ names.getLastD "" ++ ".mol2") =
      some (tk.OEWriteMolecule ".mol2"
        (oxOutMol tk receptor (smiles.getLastD ""))) := by
  have hne : ("./CB8AndGuests/" ++ names.getLastD "" ++ ".sdf") ≠
      ("./CB8AndGuests/" ++ names.getLastD "" ++ ".mol2") :=
    (mol2_ne_sdf ("./CB8AndGuests/" ++ names.getLastD "")).symm
  have hsplit : ∀ (fs : List FsOp) (o1 o2 o3 o4 o5 o6 : FsOp),
      fs ++ [o1, o2, o3, o4, o5, o6] = ((fs ++ [o1, o2, o3, o4]) ++ [o5]) ++ [o6] := by
    intro fs o1 o2 o3 o4 o5 o6
    simp [List.append_assoc]
  show fsGet (l ++ [_, _, _, _, _, _]) _ = _
  rw [hsplit, fsGet_append_write_ne _ _ _ _ hne, fsGet_append_write_eq]

theorem fsGet_append_oxDelta_sdf (tk : Toolkit) (receptor : Receptor)
    (smiles names : List String) (l : List FsOp) :
    fsGet (l ++ oxFsDelta tk receptor smiles names)
        ("./CB8AndGuests/" ++ names.getLastD "" ++ ".sdf") =
      some (tk.OEWriteMolecule ".sdf"
        (oxOutMol tk receptor (smiles.getLastD ""))) := by
  have hsplit : ∀ (fs : List FsOp) (o1 o2 o3 o4 o5 o6 : FsOp),
      fs ++ [o1, o2, o3, o4, o5, o6] = ((fs ++ [o1, o2, o3, o4]) ++ [o5]) ++ [o6] := by
    intro fs o1 o2 o3 o4 o5 o6
    simp [List.append_assoc]
  show fsGet (l ++ [_, _, _, _, _, _]) _ = _
  rw [hsplit, fsGet_append_write_eq]

/-! ## Claim C6 -/

/-- C6 counterexample: the mol2 file rewritten by the oxaliplatin cell
receives no `<0>` substitution pass — in a concrete run the final
content of `CB8-G1.mol2` still carries the literal `<0>` substructure
tag, and differs from what the substitution pass would have produced. -/
theorem C6_substitution_cex :
    fsGet (notebookRun sampleTk oaPdbSample temoaPdbSample cb8SdfSample
        gibbSample isaacsSample).fs "./CB8AndGuests/CB8-G1.mol2" =
      some [".mol2:dock[file:CB8 sdf@1,2,3](file:obabel3d:O=Pt)/sd/ann", "<0>",
        "uncharged"] ∧
    ([".mol2:dock[file:CB8 sdf@1,2,3](file:obabel3d:O=Pt)/sd/ann", "<0>",
        "uncharged"].map (fun line => strReplace line "<0>" "CB8-G1")) ≠
      [".mol2:dock[file:CB8 sdf@1,2,3](file:obabel3d:O=Pt)/sd/ann", "<0>",
        "uncharged"] := by
  exact ⟨by decide, by decide⟩

/-- C6 as amended: in the two guest loops every mol2 write is followed
by the substitution pass — the file ends up holding the serialised
molecule with every `<0>` occurrence replaced by the guest name, lines
without the tag stay unchanged, and the companion SDF file holds the
untouched serialisation; the mol2 file written by the oxaliplatin cell
gets no such pass and ends up holding the raw serialisation. -/
theorem C6_mol2_substitution (tk : Toolkit) (receptor : Receptor)
    (dirname : String) (fs : List FsOp) (p : String × String) :
    fsGet (processGuest tk receptor dirname fs p).2.1
        (dirname ++ "/" ++ p.2 ++ ".mol2") =
      some ((tk.OEWriteMolecule ".mol2" (guestOutMol tk receptor p.1)).map
        (fun line => strReplace line "<0>" p.2)) ∧
    fsGet (processGuest tk receptor dirname fs p).2.1
        (dirname ++ "/" ++ p.2 ++ ".sdf") =
      some (tk.OEWriteMolecule ".sdf" (guestOutMol tk receptor p.1)) ∧
    (∀ line : String, containsSub "<0>".data line.data = false →
      strReplace line "<0>" p.2 = line) ∧
    (∀ (tk' : Toolkit) (receptor' : Receptor) (smiles names : List String)
        (fs' : List FsOp),
      fsGet (handleOxaliplatin tk' receptor' smiles names fs').1
          ("./CB8AndGuests/" ++ names.getLastD "" ++ ".mol2") =
        some (tk'.OEWriteMolecule ".mol2"
          (oxOutMol tk' receptor' (smiles.getLastD "")))) := by
  refine ⟨?_, ?_, ?_, ?_⟩
  · rw [processGuest_fs, fsGet_append_guestFs_mol2]
  · rw [processGuest_fs, fsGet_append_guestFs_sdf]
  · intro line hline
    exact strReplace_of_not_contains line "<0>" p.2 hline
  · intro tk' receptor' smiles names fs'
    rw [handleOx_fs, fsGet_append_oxDelta_mol2]

/-- Witness for the amended C6: the substituted mol2 content, the
untouched SDF content, and an unchanged tag-free line, all at concrete
inputs. -/
theorem C6_mol2_substitution_w :
    (containsSub "<0>".data "ATOM line".data = false ∧
      strReplace "ATOM line" "<0>" "CB8-G0" = "ATOM line") ∧
    fsGet (processGuest sampleTk sampleReceptor "./CB8AndGuests" []
        ("CC", "CB8-G0")).2.1 ("./CB8AndGuests" ++ "/" ++ "CB8-G0" ++ ".mol2") =
      some ((sampleTk.OEWriteMolecule ".mol2"
        (guestOutMol sampleTk sampleReceptor "CC")).map
          (fun line => strReplace line "<0>" "CB8-G0")) :=
  ⟨⟨by decide,
    (C6_mol2_substitution sampleTk sampleReceptor "./CB8AndGuests" []
      ("CC", "CB8-G0")).2.2.1 "ATOM line" (by decide)⟩,
   (C6_mol2_substitution sampleTk sampleReceptor "./CB8AndGuests" []
     ("CC", "CB8-G0")).1⟩

/-! ## Claim C7 -/

/-- C7 counterexample: the notebook does not enforce that parsing
succeeded — with a toolkit whose `OEParseSmiles` always reports failure,
the resulting molecule record still flows into charging, docking and the
file writes of a concrete run. -/
theorem C7_parse_check_cex :
    (parseFailTk.OEParseSmiles "CC").2 = false ∧
    Event.chargeCall "OA-G0" ∈ (notebookRun parseFailTk oaPdbSample
      temoaPdbSample cb8SdfSample gibbSample isaacsSample).ev3 ∧
    Event.dockAttempt "OA-G0" ∈ (notebookRun parseFailTk oaPdbSample
      temoaPdbSample cb8SdfSample gibbSample isaacsSample).ev3 ∧
    (fsGet (notebookRun parseFailTk oaPdbSample temoaPdbSample cb8SdfSample
      gibbSample isaacsSample).fs "./OctaAcidsAndGuests/OA-G0.sdf").isSome =
      true := by
  exact ⟨by decide, by decide, by decide, by decide⟩

theorem processGuest_wpr (tk : Toolkit) (f : String → Bool)
    (hb : List String → Bool) (receptor : Receptor) (dirname : String)
    (fs : List FsOp) (p : String × String) :
    processGuest (withParseResults tk f hb) receptor dirname fs p =
      processGuest tk receptor dirname fs p := rfl

theorem processAll_wpr (tk : Toolkit) (f : String → Bool)
    (hb : List String → Bool) (receptor : Receptor) (dirname : String) :
    ∀ (ps : List (String × String)) (fs : List FsOp),
      processAll (withParseResults tk f hb) receptor dirname fs ps =
        processAll tk receptor dirname fs ps := by
  intro ps
  induction ps with
  | nil => intro fs; rfl
  | cons p rest ih =>
    intro fs
    simp only [processAll, processGuest_wpr, ih]

theorem dockGuestsTo_wpr (tk : Toolkit) (f : String → Bool)
    (hb : List String → Bool) (receptors : List (String × Receptor))
    (hostname dirname : String) (nameOf : Nat → String) (lines : List String)
    (fs : List FsOp) :
    dockGuestsTo (withParseResults tk f hb) receptors hostname dirname nameOf
        lines fs =
      dockGuestsTo tk receptors hostname dirname nameOf lines fs := by
  simp only [dockGuestsTo, processAll_wpr]

theorem dockOctaAcids_wpr (tk : Toolkit) (f : String → Bool)
    (hb : List String → Bool) (receptors : List (String × Receptor))
    (lines : List String) (fs : List FsOp) :
    dockOctaAcids (withParseResults tk f hb) receptors lines fs =
      dockOctaAcids tk receptors lines fs := by
  simp only [dockOctaAcids, dockGuestsTo_wpr]

theorem dockCB8guests_wpr (tk : Toolkit) (f : String → Bool)
    (hb : List String → Bool) (receptors : List (String × Receptor))
    (lines : List String) (fs : List FsOp) :
    dockCB8guests (withParseResults tk f hb) receptors lines fs =
      dockCB8guests tk receptors lines fs := by
  simp only [dockCB8guests, processAll_wpr]

theorem handleOx_wpr (tk : Toolkit) (f : String → Bool)
    (hb : List String → Bool) (receptor : Receptor)
    (smiles names : List String) (fs : List FsOp) :
    handleOxaliplatin (withParseResults tk f hb) receptor smiles names fs =
      handleOxaliplatin tk receptor smiles names fs := rfl

theorem loadHosts_wpr (tk : Toolkit) (f : String → Bool)
    (hb : List String → Bool) (fs : List FsOp) (a b c : List String) :
    loadHosts (withParseResults tk f hb) fs a b c = loadHosts tk fs a b c := rfl

theorem prepareReceptors_wpr (tk : Toolkit) (f : String → Bool)
    (hb : List String → Bool) (x y z : Mol) :
    prepareReceptors (withParseResults tk f hb) x y z =
      prepareReceptors tk x y z := rfl

/-- C7 as amended: the notebook never checks the return values of
`OEReadMolecule` or `OEParseSmiles` — a whole notebook run is exactly
the same no matter what success flags those calls report, so a parse
failure flows silently into all later stages. -/
theorem C7_parse_results_ignored (tk : Toolkit) (f : String → Bool)
    (hb : List String → Bool) (a b c g i : List String) :
    notebookRun (withParseResults tk f hb) a b c g i =
      notebookRun tk a b c g i := by
  simp only [notebookRun, loadHosts_wpr, prepareReceptors_wpr, dockOctaAcids_wpr,
    dockCB8guests_wpr, handleOx_wpr]

/-! ## Claim C9 -/

/-- C9: the oxaliplatin cell assumes the platinum guest is the last
SMILES line: it writes `smiles[-1]` to `oxaliplatin.smi` and saves its
docked result under `guest_names[-1]` (which is `CB8-G(n-1)` for `n`
input lines), so the mol2 and SDF files the main CB8 loop had already
written for that last guest exist after stage 4 and end up overwritten
with the oxaliplatin output — whatever guest happens to sit on the last
line. -/
theorem C9_oxaliplatin_last_overwrite (tk : Toolkit) (a b c g i : List String)
    (hne : i ≠ []) :
    (notebookRun tk a b c g i).cb8Names.getLastD "" =
      "CB8-G" ++ toString (i.length - 1) ∧
    FsOp.write "oxaliplatin.smi"
        [(notebookRun tk a b c g i).cb8Smiles.getLastD ""] ∈
      (notebookRun tk a b c g i).fs ∧
    (fsGet (notebookRun tk a b c g i).fs4
      ("./CB8AndGuests/" ++ ("CB8-G" ++ toString (i.length - 1)) ++
        ".mol2")).isSome = true ∧
    (fsGet (notebookRun tk a b c g i).fs4
      ("./CB8AndGuests/" ++ ("CB8-G" ++ toString (i.length - 1)) ++
        ".sdf")).isSome = true ∧
    fsGet (notebookRun tk a b c g i).fs
        ("./CB8AndGuests/" ++ ("CB8-G" ++ toString (i.length - 1)) ++ ".mol2") =
      some (tk.OEWriteMolecule ".mol2" (oxOutMol tk (receptorFor tk a b c "CB8")
        ((i.map firstToken).getLastD ""))) ∧
    fsGet (notebookRun tk a b c g i).fs
        ("./CB8AndGuests/" ++ ("CB8-G" ++ toString (i.length - 1)) ++ ".sdf") =
      some (tk.OEWriteMolecule ".sdf" (oxOutMol tk (receptorFor tk a b c "CB8")
        ((i.map firstToken).getLastD ""))) := by
  have hk : i.length - 1 < i.length :=
    Nat.sub_lt (List.length_pos.mpr hne) Nat.one_pos
  have hmaplen : (i.map firstToken).length = i.length := List.length_map i _
  have hmapne : (i.map firstToken).length ≠ 0 := by
    rw [hmaplen]
    exact Nat.pos_iff_ne_zero.mp (List.length_pos.mpr hne)
  have hlast : ((List.range (i.map firstToken).length).map
      (fun k => "CB8-G" ++ toString k)).getLastD "" =
      "CB8-G" ++ toString (i.length - 1) := by
    rw [getLastD_range_map _ _ _ hmapne, hmaplen]
  have hnames : (notebookRun tk a b c g i).cb8Names.getLastD "" =
      "CB8-G" ++ toString (i.length - 1) := by
    rw [run_cb8Names]
    exact hlast
  refine ⟨hnames, ?_, ?_, ?_, ?_, ?_⟩
  · rw [run_fs, run_cb8Smiles]
    exact List.mem_append.mpr (Or.inr (by simp [oxFsDelta]))
  · have hw := cb8_guestFs_mem tk a b c g i _ _
      (cb8_pair_mem i (i.length - 1) hk)
      (write_mol2_mem_guestFs tk (receptorFor tk a b c "CB8") "./CB8AndGuests"
        ((i.map firstToken).getD (i.length - 1) "",
          "CB8-G" ++ toString (i.length - 1)))
    rw [cb8_dir_path] at hw
    exact fsGet_isSome_of_write _ _ _ hw (run_fs4_writesOnly tk a b c g i)
  · have hw := cb8_guestFs_mem tk a b c g i _ _
      (cb8_pair_mem i (i.length - 1) hk)
      (write_sdf_mem_guestFs tk (receptorFor tk a b c "CB8") "./CB8AndGuests"
        ((i.map firstToken).getD (i.length - 1) "",
          "CB8-G" ++ toString (i.length - 1)))
    rw [cb8_dir_path] at hw
    exact fsGet_isSome_of_write _ _ _ hw (run_fs4_writesOnly tk a b c g i)
  · rw [run_fs]
    have h := fsGet_append_oxDelta_mol2 tk (receptorFor tk a b c "CB8")
      (i.map firstToken)
      ((List.range (i.map firstToken).length).map
        (fun k => "CB8-G" ++ toString k))
      (notebookRun tk a b c g i).fs4
    rw [hlast] at h
    exact h
  · rw [run_fs]
    have h := fsGet_append_oxDelta_sdf tk (receptorFor tk a b c "CB8")
      (i.map firstToken)
      ((List.range (i.map firstToken).length).map
        (fun k => "CB8-G" ++ toString k))
      (notebookRun tk a b c g i).fs4
    rw [hlast] at h
    exact h

/-- Witness for C9 at a concrete run with two CB8 guests: the loop's
`CB8-G1` files exist after stage 4 and the final `CB8-G1.mol2` holds the
oxaliplatin output. -/
theorem C9_oxaliplatin_last_overwrite_w :
    isaacsSample ≠ [] ∧
      fsGet (notebookRun sampleTk oaPdbSample temoaPdbSample cb8SdfSample
          gibbSample isaacsSample).fs "./CB8AndGuests/CB8-G1.mol2" =
        some (sampleTk.OEWriteMolecule ".mol2"
          (oxOutMol sampleTk
            (receptorFor sampleTk oaPdbSample temoaPdbSample cb8SdfSample "CB8")
            ((isaacsSample.map firstToken).getLastD ""))) :=
  ⟨by decide,
   (C9_oxaliplatin_last_overwrite sampleTk oaPdbSample temoaPdbSample
     cb8SdfSample gibbSample isaacsSample (by decide)).2.2.2.2.1⟩

end SAMPL6
